import Mathlib

/-!
The sim-ctl eyes daemon: device session and synchronization loop.

A shallow embedding of `src/eyes/eyesI2C.{h,cpp}` (class `eyesI2C`) and of
`src/eyes/eyesScan.cpp` (the snapshot, `eyesChanged`, `updatePrevEyes`, and the
body of the main loop), followed by theorems about them.

Conventions.
* A C `int` is an `Int` between `INT_MIN` and `INT_MAX`.  The only arithmetic
  on `int` values that can leave this range is `pupil - 5` in `encodePupil`;
  its result is reduced to 32 bits by `wrapInt32`, as the compiled code does.
* An `unsigned char` is a `Nat` below 256; every store into one goes through
  `toUChar` (reduction modulo 256).
* The results of the system calls (`open`, `ioctl`, `errno`) and of
  `getI2CLock` (declared in `comm/simUtil.h`) are inputs of the model; the
  calls themselves are recorded in a trace of `Event`s.
-/

namespace SimCtl

/-! ## Constants of `eyesI2C.h` and `shmData.h` -/

def EYES_I2C_ADDR : Int := 0x42
def EYES_PACKET_SIZE : Nat := 12
def EYES_CMD_HEADER : Int := 0xBB

def PKT_HEADER : Nat := 0
def PKT_EYESTATE : Nat := 1
def PKT_RESET : Nat := 2
def PKT_LID : Nat := 3
def PKT_MOVE : Nat := 4
def PKT_POS_R : Nat := 5
def PKT_POS_L : Nat := 6
def PKT_BLINK : Nat := 7
def PKT_PUPIL_R : Nat := 8
def PKT_PUPIL_L : Nat := 9
def PKT_RESERVED : Nat := 10
def PKT_CHECKSUM : Nat := 11

def SET_R_BIT : Int := 7
def VAL_R_SHIFT : Int := 5
def SET_L_BIT : Int := 3
def VAL_L_SHIFT : Int := 1

def POS_SET_BIT : Int := 7
def POS_VAL_SHIFT : Int := 3

def PUPIL_SET_BIT : Int := 7
def PUPIL_VAL_MASK : Int := 0x7F

def EYE_STATE_NORMAL : Int := 0
def EYE_LID_OPEN : Int := 0
def EYE_MOVE_NORMAL : Int := 0
def EYE_POS_CENTER : Int := 0
def EYE_BLINK_NORMAL : Int := 0

/-! ## Bytes -/

/-- Conversion of an `int` to `unsigned char`: reduction modulo 256. -/
def toUChar (x : Int) : Nat := (x % 256).toNat

/-- The compound assignment `result |= v` on an `unsigned char result`:
the operand is promoted to `int`, or-ed, and the result stored back. -/
def orAssign (result : Nat) (v : Int) : Nat := toUChar (Int.lor (result : Int) v)

/-! ## The encoders of `eyesI2C` -/

/-- Source: `eyesI2C::encodeStandard`. -/
def encodeStandard (setR valR setL valL : Int) : Nat :=
  let result : Nat := 0
  let result := if setR ≠ 0 then orAssign result ((1 : Int) <<< SET_R_BIT) else result
  let result := orAssign result ((Int.land valR 0x03) <<< VAL_R_SHIFT)
  let result := if setL ≠ 0 then orAssign result ((1 : Int) <<< SET_L_BIT) else result
  let result := orAssign result ((Int.land valL 0x03) <<< VAL_L_SHIFT)
  result

/-- Source: `eyesI2C::encodePosition`. -/
def encodePosition (set pos : Int) : Nat :=
  let result : Nat := 0
  let result := if set ≠ 0 then orAssign result ((1 : Int) <<< POS_SET_BIT) else result
  let result := orAssign result ((Int.land pos 0x0F) <<< POS_VAL_SHIFT)
  result

/-- The least value of a 32-bit `int`. -/
def INT_MIN : Int := -2147483648

/-- The greatest value of a 32-bit `int`. -/
def INT_MAX : Int := 2147483647

/-- The value an `int` holds after an arithmetic result `x` is stored in it:
`x` reduced modulo `2^32` into `INT_MIN .. INT_MAX` (two's complement). -/
def wrapInt32 (x : Int) : Int := (x + 2147483648) % 4294967296 - 2147483648

/-- Source: `eyesI2C::encodePupil`. -/
def encodePupil (set pupil : Int) : Nat :=
  let result : Nat := 0
  let result := if set ≠ 0 then orAssign result ((1 : Int) <<< PUPIL_SET_BIT) else result
  let encoded : Int := wrapInt32 (pupil - 5)
  let encoded := if encoded < 0 then 0 else encoded
  let encoded := if encoded > 85 then 85 else encoded
  let result := orAssign result (Int.land encoded PUPIL_VAL_MASK)
  result

/-! ## The device session -/

/-- The data members of `class eyesI2C` that the code reads (the two character
buffers are only written). -/
structure EyesI2C where
  I2CBus : Int
  I2Cfile : Int
  I2CAddr : Int
  present : Int
deriving DecidableEq

/-- The twelve arguments of `sendFullCommand`, in the order of its parameter
list. -/
structure FullArgs where
  rState : Int
  lState : Int
  rLid : Int
  lLid : Int
  rMove : Int
  lMove : Int
  rPos : Int
  lPos : Int
  rBlink : Int
  lBlink : Int
  rPupil : Int
  lPupil : Int
deriving DecidableEq

/-- What the session does to the outside world, in program order. -/
inductive Event where
  /-- Call of `open("/dev/i2c-<bus>", O_RDWR)`, which returned `fd`. -/
  | openBus (bus : Int) (fd : Int)
  /-- Call of `close(fd)`. -/
  | closeFd (fd : Int)
  /-- Call of `getI2CLock()`, which returned `sts` (zero: the lock is held). -/
  | getI2CLock (sts : Int)
  /-- Call of `releaseI2CLock()`. -/
  | releaseI2CLock
  /-- The one-byte read transaction `ioctl(fd, I2C_RDWR, ..)` returned `sts`. -/
  | probeRead (fd : Int) (sts : Int)
  /-- The write transaction `ioctl(fd, I2C_RDWR, ..)` of `packet` to `addr`
  returned `status`. -/
  | writePacket (fd : Int) (addr : Int) (packet : List Nat) (status : Int)
  /-- A call of `sendFullCommand` with these arguments. -/
  | sendFullCall (args : FullArgs)
  /-- Call of `usleep(usec)`. -/
  | usleep (usec : Nat)
deriving DecidableEq

/-- Results of the calls `scanForDevice` makes for one bus. -/
structure BusEnv where
  /-- Result of `open`. -/
  openFd : Int
  /-- Result of `ioctl(I2Cfile, I2C_SLAVE, I2CAddr)`. -/
  slaveSts : Int
  /-- Result of `getI2CLock()`. -/
  lockSts : Int
  /-- Result of `ioctl(I2Cfile, I2C_RDWR, &ioctl_data)`. -/
  rdwrSts : Int
  /-- Content of `readBuf[0]` after the transaction. -/
  readByte : Nat

/-- Results of the calls `sendCommand` makes. -/
structure SendEnv where
  /-- Result of `getI2CLock()`. -/
  lockSts : Int
  /-- Result of `ioctl(I2Cfile, I2C_RDWR, &ioctl_data)`. -/
  status : Int
  /-- Value of `errno` read after a failed transaction. -/
  errno : Int

/-- Outcome of `scanForDevice`. -/
structure ScanResult where
  ret : Int
  session : EyesI2C
  trace : List Event

/-- The `for (I2CBus = 1; I2CBus < 3; I2CBus++)` loop of `scanForDevice`:
the first argument counts the iterations that remain, the loop variable is the
session's `I2CBus`.  With none left the code after the loop runs. -/
def scanLoop (env : Int → BusEnv) : Nat → EyesI2C → List Event → ScanResult
  | 0, s, tr =>
    let s := { s with present := 0 }
    ⟨s.present, s, tr⟩
  | n + 1, s, tr =>
    let e := env s.I2CBus
    let next (s : EyesI2C) (tr : List Event) : ScanResult :=
      scanLoop env n { s with I2CBus := s.I2CBus + 1 } tr
    let s := { s with I2Cfile := e.openFd }
    let tr := tr ++ [Event.openBus s.I2CBus e.openFd]
    if s.I2Cfile < 0 then
      next s tr
    else
      -- the `close(I2Cfile); I2Cfile = -1;` that ends the loop body
      let closeNext (s : EyesI2C) (tr : List Event) : ScanResult :=
        next { s with I2Cfile := -1 } (tr ++ [Event.closeFd s.I2Cfile])
      if e.slaveSts ≥ 0 then
        let tr := tr ++ [Event.getI2CLock e.lockSts]
        if e.lockSts ≠ 0 then
          next { s with I2Cfile := -1 } (tr ++ [Event.closeFd s.I2Cfile])
        else
          let tr := tr ++ [Event.probeRead s.I2Cfile e.rdwrSts, Event.releaseI2CLock]
          if e.rdwrSts ≥ 0 then
            if e.readByte = 0x01 then
              let s := { s with present := 1 }
              ⟨s.present, s, tr⟩
            else closeNext s tr
          else closeNext s tr
      else closeNext s tr

/-- Source: `eyesI2C::scanForDevice`. -/
def scanForDevice (env : Int → BusEnv) (s : EyesI2C) : ScanResult :=
  scanLoop env 2 { s with I2CBus := 1 } []

/-- Source: the constructor `eyesI2C::eyesI2C` (`I2CBus` is not initialised by
it; `scanForDevice` assigns it before any use). -/
def construct (env : Int → BusEnv) : ScanResult :=
  scanForDevice env { present := 0, I2CAddr := EYES_I2C_ADDR, I2Cfile := -1, I2CBus := 0 }

/-- Source: the destructor `eyesI2C::~eyesI2C`. -/
def destruct (s : EyesI2C) : List Event :=
  if s.I2Cfile ≥ 0 then [Event.closeFd s.I2Cfile] else []

/-- Outcome of `sendCommand`: the return value, the session, the caller's
buffer after the call and the trace. -/
structure SendResult where
  ret : Int
  session : EyesI2C
  packet : List Nat
  trace : List Event

/-- The checksum code of `sendCommand`: `packet[PKT_CHECKSUM] = 0` followed by
`for (int i = 1; i <= 10; i++) packet[PKT_CHECKSUM] ^= packet[i];`. -/
def checksumLoop (packet : List Nat) : List Nat :=
  (List.range' 1 10).foldl
    (fun pk i => pk.set PKT_CHECKSUM (toUChar ((pk.getD PKT_CHECKSUM 0 ^^^ pk.getD i 0 : Nat) : Int)))
    (packet.set PKT_CHECKSUM 0)

/-- Source: `eyesI2C::sendCommand`. -/
def sendCommand (env : SendEnv) (s : EyesI2C) (packet : List Nat) : SendResult :=
  if s.present = 0 ∨ s.I2Cfile < 0 then
    ⟨-1, s, packet, []⟩
  else
    let packet := checksumLoop packet
    if env.lockSts ≠ 0 then
      ⟨-1, s, packet, [Event.getI2CLock env.lockSts]⟩
    else
      let tr := [Event.getI2CLock env.lockSts,
                 Event.writePacket s.I2Cfile s.I2CAddr packet env.status,
                 Event.releaseI2CLock]
      if env.status < 0 then
        let s := if env.errno = 121 then { s with present := 0 } else s
        ⟨-2, s, packet, tr⟩
      else
        ⟨0, s, packet, tr⟩

/-- The buffer after `memset(packet, 0, EYES_PACKET_SIZE)`. -/
def zeroPacket : List Nat := List.replicate EYES_PACKET_SIZE 0

/-- The local `packet` of `sendEyeState` at the call of `sendCommand`. -/
def eyeStatePacket (rightState leftState : Int) : List Nat :=
  let packet := zeroPacket
  let packet := packet.set PKT_HEADER (toUChar EYES_CMD_HEADER)
  let packet := packet.set PKT_EYESTATE (encodeStandard 1 rightState 1 leftState)
  packet

/-- Source: `eyesI2C::sendEyeState`. -/
def sendEyeState (env : SendEnv) (s : EyesI2C) (rightState leftState : Int) : SendResult :=
  sendCommand env s (eyeStatePacket rightState leftState)

/-- The local `packet` of `sendFullCommand` at the call of `sendCommand`. -/
def fullPacket (a : FullArgs) : List Nat :=
  let packet := zeroPacket
  let packet := packet.set PKT_HEADER (toUChar EYES_CMD_HEADER)
  let packet := packet.set PKT_EYESTATE (encodeStandard 1 a.rState 1 a.lState)
  let packet := packet.set PKT_LID (encodeStandard 1 a.rLid 1 a.lLid)
  let packet := packet.set PKT_MOVE (encodeStandard 1 a.rMove 1 a.lMove)
  let packet := packet.set PKT_POS_R (encodePosition 1 a.rPos)
  let packet := packet.set PKT_POS_L (encodePosition 1 a.lPos)
  let packet := packet.set PKT_BLINK (encodeStandard 1 a.rBlink 1 a.lBlink)
  let packet := packet.set PKT_PUPIL_R (encodePupil 1 a.rPupil)
  let packet := packet.set PKT_PUPIL_L (encodePupil 1 a.lPupil)
  packet

/-- Source: `eyesI2C::sendFullCommand`.  The call itself is recorded in front
of what `sendCommand` does. -/
def sendFullCommand (env : SendEnv) (s : EyesI2C) (a : FullArgs) : SendResult :=
  let r := sendCommand env s (fullPacket a)
  { r with trace := Event.sendFullCall a :: r.trace }

/-! ## The synchronization loop (`eyesScan.cpp`) -/

/-- Source: `struct eyes` of `shmData.h`, the part of the shared memory the
daemon uses. -/
structure Eyes where
  connected : Int
  right_state : Int
  right_lid : Int
  right_move : Int
  right_position : Int
  right_blink : Int
  right_pupil : Int
  left_state : Int
  left_lid : Int
  left_move : Int
  left_position : Int
  left_blink : Int
  left_pupil : Int
  send_command : Int
deriving DecidableEq

/-- Source: the anonymous struct `prevEyes` of `eyesScan.cpp`. -/
structure PrevEyes where
  right_state : Int
  right_lid : Int
  right_move : Int
  right_position : Int
  right_blink : Int
  right_pupil : Int
  left_state : Int
  left_lid : Int
  left_move : Int
  left_position : Int
  left_blink : Int
  left_pupil : Int
deriving DecidableEq

/-- Source: `initPrevEyes`. -/
def initPrevEyes (eyes : Eyes) : PrevEyes :=
  { right_state := eyes.right_state
    right_lid := eyes.right_lid
    right_move := eyes.right_move
    right_position := eyes.right_position
    right_blink := eyes.right_blink
    right_pupil := eyes.right_pupil
    left_state := eyes.left_state
    left_lid := eyes.left_lid
    left_move := eyes.left_move
    left_position := eyes.left_position
    left_blink := eyes.left_blink
    left_pupil := eyes.left_pupil }

/-- Source: `eyesChanged`. -/
def eyesChanged (prevEyes : PrevEyes) (eyes : Eyes) : Int :=
  if eyes.send_command ≠ 0 then 1
  else if prevEyes.right_state ≠ eyes.right_state then 1
  else if prevEyes.right_lid ≠ eyes.right_lid then 1
  else if prevEyes.right_move ≠ eyes.right_move then 1
  else if prevEyes.right_position ≠ eyes.right_position then 1
  else if prevEyes.right_blink ≠ eyes.right_blink then 1
  else if prevEyes.right_pupil ≠ eyes.right_pupil then 1
  else if prevEyes.left_state ≠ eyes.left_state then 1
  else if prevEyes.left_lid ≠ eyes.left_lid then 1
  else if prevEyes.left_move ≠ eyes.left_move then 1
  else if prevEyes.left_position ≠ eyes.left_position then 1
  else if prevEyes.left_blink ≠ eyes.left_blink then 1
  else if prevEyes.left_pupil ≠ eyes.left_pupil then 1
  else 0

/-- Source: `updatePrevEyes`; it writes the snapshot and clears the shared
`send_command`. -/
def updatePrevEyes (eyes : Eyes) : PrevEyes × Eyes :=
  ({ right_state := eyes.right_state
     right_lid := eyes.right_lid
     right_move := eyes.right_move
     right_position := eyes.right_position
     right_blink := eyes.right_blink
     right_pupil := eyes.right_pupil
     left_state := eyes.left_state
     left_lid := eyes.left_lid
     left_move := eyes.left_move
     left_position := eyes.left_position
     left_blink := eyes.left_blink
     left_pupil := eyes.left_pupil },
   { eyes with send_command := 0 })

/-- The argument list both calls of `sendFullCommand` in `main` pass: the live
fields, right before left for each kind. -/
def liveArgs (eyes : Eyes) : FullArgs :=
  { rState := eyes.right_state, lState := eyes.left_state
    rLid := eyes.right_lid, lLid := eyes.left_lid
    rMove := eyes.right_move, lMove := eyes.left_move
    rPos := eyes.right_position, lPos := eyes.left_position
    rBlink := eyes.right_blink, lBlink := eyes.left_blink
    rPupil := eyes.right_pupil, lPupil := eyes.left_pupil }

/-- The variables `main` works on: the session `eyesCtl`, the `eyes` part of
the shared memory and the snapshot `prevEyes`. -/
structure Daemon where
  eyesCtl : EyesI2C
  eyes : Eyes
  prevEyes : PrevEyes
deriving DecidableEq

/-- What the outside world answers during one iteration of the main loop. -/
structure TickEnv where
  bus : Int → BusEnv
  send : SendEnv

/-- Source: `main`, from the initialisation of the shared `eyes` up to and
including `initPrevEyes()`.  The result of the initial `sendFullCommand` is
discarded, as in the source. -/
def startup (env : TickEnv) : Daemon × List Event :=
  let eyes : Eyes :=
    { connected := 0
      right_state := EYE_STATE_NORMAL
      right_lid := EYE_LID_OPEN
      right_move := EYE_MOVE_NORMAL
      right_position := EYE_POS_CENTER
      right_blink := EYE_BLINK_NORMAL
      right_pupil := 70
      left_state := EYE_STATE_NORMAL
      left_lid := EYE_LID_OPEN
      left_move := EYE_MOVE_NORMAL
      left_position := EYE_POS_CENTER
      left_blink := EYE_BLINK_NORMAL
      left_pupil := 70
      send_command := 0 }
  let c := construct env.bus
  if c.session.present = 0 then
    (⟨c.session, eyes, initPrevEyes eyes⟩, c.trace)
  else
    let eyes := { eyes with connected := 1 }
    let r := sendFullCommand env.send c.session (liveArgs eyes)
    (⟨r.session, eyes, initPrevEyes eyes⟩, c.trace ++ r.trace)

/-- Source: the body of `while (1)` in `main`: one tick. -/
def loopBody (env : TickEnv) (d : Daemon) : Daemon × List Event :=
  if d.eyesCtl.present = 0 then
    let eyes := { d.eyes with connected := 0 }
    let r := scanForDevice env.bus d.eyesCtl
    let tr := Event.usleep 10000000 :: r.trace
    if r.session.present ≠ 0 then
      (⟨r.session, { eyes with connected := 1, send_command := 1 }, d.prevEyes⟩, tr)
    else
      (⟨r.session, eyes, d.prevEyes⟩, tr)
  else
    if eyesChanged d.prevEyes d.eyes ≠ 0 then
      let r := sendFullCommand env.send d.eyesCtl (liveArgs d.eyes)
      let tr := r.trace ++ [Event.usleep 50000]
      if r.ret < 0 then
        if r.session.present = 0 then
          (⟨r.session, { d.eyes with connected := 0 }, d.prevEyes⟩, tr)
        else
          (⟨r.session, d.eyes, d.prevEyes⟩, tr)
      else
        let u := updatePrevEyes d.eyes
        (⟨r.session, u.2, u.1⟩, tr)
    else
      (d, [Event.usleep 50000])

/-! ## Reading a trace -/

/-- The packets handed to a write transaction, in order. -/
def writtenPackets : List Event → List (List Nat)
  | [] => []
  | Event.writePacket _ _ packet _ :: tr => packet :: writtenPackets tr
  | _ :: tr => writtenPackets tr

/-- The argument lists of the calls of `sendFullCommand`, in order. -/
def sendFullCalls : List Event → List FullArgs
  | [] => []
  | Event.sendFullCall a :: tr => a :: sendFullCalls tr
  | _ :: tr => sendFullCalls tr

/-- The tracked fields of the eye state, one name per field. -/
inductive Field where
  | right_state | right_lid | right_move | right_position | right_blink | right_pupil
  | left_state | left_lid | left_move | left_position | left_blink | left_pupil
deriving DecidableEq

/-- The live value of a tracked field. -/
def Eyes.get (eyes : Eyes) : Field → Int
  | .right_state => eyes.right_state
  | .right_lid => eyes.right_lid
  | .right_move => eyes.right_move
  | .right_position => eyes.right_position
  | .right_blink => eyes.right_blink
  | .right_pupil => eyes.right_pupil
  | .left_state => eyes.left_state
  | .left_lid => eyes.left_lid
  | .left_move => eyes.left_move
  | .left_position => eyes.left_position
  | .left_blink => eyes.left_blink
  | .left_pupil => eyes.left_pupil

/-- An external write of `v` into one tracked field of the shared memory. -/
def Eyes.put (eyes : Eyes) (f : Field) (v : Int) : Eyes :=
  match f with
  | .right_state => { eyes with right_state := v }
  | .right_lid => { eyes with right_lid := v }
  | .right_move => { eyes with right_move := v }
  | .right_position => { eyes with right_position := v }
  | .right_blink => { eyes with right_blink := v }
  | .right_pupil => { eyes with right_pupil := v }
  | .left_state => { eyes with left_state := v }
  | .left_lid => { eyes with left_lid := v }
  | .left_move => { eyes with left_move := v }
  | .left_position => { eyes with left_position := v }
  | .left_blink => { eyes with left_blink := v }
  | .left_pupil => { eyes with left_pupil := v }

/-! ## Vocabulary of the specification -/

/-- The exclusive-or of bytes 1 through 10 of a packet, written out. -/
def xorBytes1to10 (q : List Nat) : Nat :=
  q.getD 1 0 ^^^ q.getD 2 0 ^^^ q.getD 3 0 ^^^ q.getD 4 0 ^^^ q.getD 5 0 ^^^
    q.getD 6 0 ^^^ q.getD 7 0 ^^^ q.getD 8 0 ^^^ q.getD 9 0 ^^^ q.getD 10 0

/-- The clamp of the specification: `x` brought into `lo .. hi`. -/
def clamp (x lo hi : Int) : Int := if x < lo then lo else if x > hi then hi else x

/-- The snapshot equals the live state: field by field, over the twelve
tracked fields. -/
def SnapshotMatches (prevEyes : PrevEyes) (eyes : Eyes) : Prop :=
  prevEyes.right_state = eyes.right_state ∧ prevEyes.right_lid = eyes.right_lid ∧
  prevEyes.right_move = eyes.right_move ∧ prevEyes.right_position = eyes.right_position ∧
  prevEyes.right_blink = eyes.right_blink ∧ prevEyes.right_pupil = eyes.right_pupil ∧
  prevEyes.left_state = eyes.left_state ∧ prevEyes.left_lid = eyes.left_lid ∧
  prevEyes.left_move = eyes.left_move ∧ prevEyes.left_position = eyes.left_position ∧
  prevEyes.left_blink = eyes.left_blink ∧ prevEyes.left_pupil = eyes.left_pupil

instance (prevEyes : PrevEyes) (eyes : Eyes) : Decidable (SnapshotMatches prevEyes eyes) := by
  unfold SnapshotMatches
  infer_instance

/-! ## Concrete inputs used to instantiate the theorems -/

/-- A session that found the controller on bus 1 (descriptor 3). -/
def sessionUp : EyesI2C := { I2CBus := 1, I2Cfile := 3, I2CAddr := EYES_I2C_ADDR, present := 1 }

/-- A session that lost the controller by a remote I/O error: `present` is
cleared, the descriptor is still the one `scanForDevice` kept. -/
def sessionDown : EyesI2C := { I2CBus := 1, I2Cfile := 3, I2CAddr := EYES_I2C_ADDR, present := 0 }

/-- The shared eye state as `main` initialises it, with `connected` set. -/
def eyesDefault : Eyes :=
  { connected := 1
    right_state := EYE_STATE_NORMAL, right_lid := EYE_LID_OPEN, right_move := EYE_MOVE_NORMAL
    right_position := EYE_POS_CENTER, right_blink := EYE_BLINK_NORMAL, right_pupil := 70
    left_state := EYE_STATE_NORMAL, left_lid := EYE_LID_OPEN, left_move := EYE_MOVE_NORMAL
    left_position := EYE_POS_CENTER, left_blink := EYE_BLINK_NORMAL, left_pupil := 70
    send_command := 0 }

/-- A connected daemon whose snapshot equals the live state. -/
def daemonUp : Daemon := ⟨sessionUp, eyesDefault, initPrevEyes eyesDefault⟩

/-- A disconnected daemon whose snapshot equals the live state. -/
def daemonDown : Daemon :=
  ⟨sessionDown, { eyesDefault with connected := 0 }, initPrevEyes eyesDefault⟩

/-- An outside world in which every call succeeds: each bus opens as descriptor
4 and answers the probe with `0x01`, the lock is free, the write goes through. -/
def envAllOk : TickEnv :=
  { bus := fun _ => { openFd := 4, slaveSts := 0, lockSts := 0, rdwrSts := 0, readByte := 0x01 }
    send := { lockSts := 0, status := 0, errno := 0 } }

/-- A caller's buffer with a stale checksum byte and an arbitrary byte 0. -/
def stalePacket : List Nat := [0x11, 1, 2, 3, 4, 5, 6, 7, 8, 9, 10, 0xFF]

/-! ## More ways to read a trace -/

/-- The bus numbers of the `open` calls, in order. -/
def triedBuses : List Event → List Int
  | [] => []
  | Event.openBus bus _ :: tr => bus :: triedBuses tr
  | _ :: tr => triedBuses tr

/-- The descriptors the successful `open` calls returned, in order. -/
def openedFds : List Event → List Int
  | [] => []
  | Event.openBus _ fd :: tr => if 0 ≤ fd then fd :: openedFds tr else openedFds tr
  | _ :: tr => openedFds tr

/-- The descriptors passed to `close`, in order. -/
def closedFds : List Event → List Int
  | [] => []
  | Event.closeFd fd :: tr => fd :: closedFds tr
  | _ :: tr => closedFds tr

/-- The packets whose write transaction succeeded, in order. -/
def deliveredPackets : List Event → List (List Nat)
  | [] => []
  | Event.writePacket _ _ packet status :: tr =>
    if 0 ≤ status then packet :: deliveredPackets tr else deliveredPackets tr
  | _ :: tr => deliveredPackets tr

/-- The number of bus transactions (probe reads and packet writes). -/
def busTransactions : List Event → Nat
  | [] => 0
  | Event.probeRead _ _ :: tr => busTransactions tr + 1
  | Event.writePacket _ _ _ _ :: tr => busTransactions tr + 1
  | _ :: tr => busTransactions tr

/-- Where this process stands with the bus lock: it does not hold it, it
holds it and has made no transaction yet, or it holds it and has made one. -/
inductive LockState where
  | free
  | held
  | used
deriving DecidableEq

/-- One event checked against the lock rule: a transaction needs the lock held
and is the only one under it, a release needs the lock held, and the lock is
not asked for while held.  `none` is a violation. -/
def lockStep : LockState → Event → Option LockState
  | LockState.free, Event.getI2CLock sts => if sts = 0 then some LockState.held else some LockState.free
  | _, Event.getI2CLock _ => none
  | LockState.free, Event.releaseI2CLock => none
  | _, Event.releaseI2CLock => some LockState.free
  | LockState.held, Event.probeRead _ _ => some LockState.used
  | _, Event.probeRead _ _ => none
  | LockState.held, Event.writePacket _ _ _ _ => some LockState.used
  | _, Event.writePacket _ _ _ _ => none
  | st, _ => some st

/-- A trace checked against the lock rule, event by event. -/
def lockRun : LockState → List Event → Option LockState
  | st, [] => some st
  | st, e :: tr =>
    match lockStep st e with
    | none => none
    | some st1 => lockRun st1 tr

/-- The bus answers the probe: it opens, addressing succeeds, the lock is
obtained, and the one-byte read succeeds and returns `0x01`. -/
def BusEnv.responds (e : BusEnv) : Prop :=
  0 ≤ e.openFd ∧ 0 ≤ e.slaveSts ∧ e.lockSts = 0 ∧ 0 ≤ e.rdwrSts ∧ e.readByte = 0x01

instance (e : BusEnv) : Decidable e.responds := by
  unfold BusEnv.responds
  infer_instance

/-! ## The life of a session -/

/-- The public operations of `eyesI2C` a caller can invoke between
construction and destruction, each with what the outside world answers. -/
inductive Op where
  | scan (env : Int → BusEnv)
  | send (env : SendEnv) (packet : List Nat)
  | sendFull (env : SendEnv) (a : FullArgs)

/-- A sequence of operations run on a session, with the trace they leave. -/
def runOps : EyesI2C → List Op → EyesI2C × List Event
  | s, [] => (s, [])
  | s, Op.scan env :: ops =>
    let r := scanForDevice env s
    let rest := runOps r.session ops
    (rest.1, r.trace ++ rest.2)
  | s, Op.send env packet :: ops =>
    let r := sendCommand env s packet
    let rest := runOps r.session ops
    (rest.1, r.trace ++ rest.2)
  | s, Op.sendFull env a :: ops =>
    let r := sendFullCommand env s a
    let rest := runOps r.session ops
    (rest.1, r.trace ++ rest.2)

/-- Construction, a sequence of operations, destruction: the whole trace. -/
def lifetime (env0 : Int → BusEnv) (ops : List Op) : List Event :=
  let c := construct env0
  let r := runOps c.session ops
  c.trace ++ r.2 ++ destruct r.1

/-! ## More concrete inputs -/

/-- A world in which bus 1 does not open and bus 2 answers the probe
(descriptor 4). -/
def busTwoOnly : Int → BusEnv := fun bus =>
  if bus = 2 then { openFd := 4, slaveSts := 0, lockSts := 0, rdwrSts := 0, readByte := 0x01 }
  else { openFd := -1, slaveSts := 0, lockSts := 0, rdwrSts := 0, readByte := 0 }

/-- A world in which every bus opens as descriptor `fd` and answers the probe. -/
def busAnswers (fd : Int) : Int → BusEnv := fun _ =>
  { openFd := fd, slaveSts := 0, lockSts := 0, rdwrSts := 0, readByte := 0x01 }

/-- The write fails with errno 121 (remote I/O error). -/
def sendRemoteIO : SendEnv := { lockSts := 0, status := -1, errno := 121 }

/-- The write fails with errno 5 (I/O error), a failure that does not demote. -/
def sendIOError : SendEnv := { lockSts := 0, status := -1, errno := 5 }

/-- The bus lock cannot be obtained. -/
def sendLockBusy : SendEnv := { lockSts := -1, status := 0, errno := 0 }

/-- The controller answers the probe (descriptor 3), then the write fails with
a remote I/O error. -/
def envFoundThenGone : TickEnv := { bus := busAnswers 3, send := sendRemoteIO }

/-- The controller answers the probe (descriptor 3), then the write fails with
a plain I/O error. -/
def envFoundThenGlitch : TickEnv := { bus := busAnswers 3, send := sendIOError }

/-! ## The valid domain of the eye state -/

/-- The twelve values lie in the ranges `shmData.h` gives them: state 0 .. 3,
lid 0 .. 2, move 0 .. 2, position 0 .. 8, blink 0 .. 3, pupil 5 .. 90. -/
def FullArgs.valid (a : FullArgs) : Prop :=
  (0 ≤ a.rState ∧ a.rState ≤ 3) ∧ (0 ≤ a.lState ∧ a.lState ≤ 3) ∧
  (0 ≤ a.rLid ∧ a.rLid ≤ 2) ∧ (0 ≤ a.lLid ∧ a.lLid ≤ 2) ∧
  (0 ≤ a.rMove ∧ a.rMove ≤ 2) ∧ (0 ≤ a.lMove ∧ a.lMove ≤ 2) ∧
  (0 ≤ a.rPos ∧ a.rPos ≤ 8) ∧ (0 ≤ a.lPos ∧ a.lPos ≤ 8) ∧
  (0 ≤ a.rBlink ∧ a.rBlink ≤ 3) ∧ (0 ≤ a.lBlink ∧ a.lBlink ≤ 3) ∧
  (5 ≤ a.rPupil ∧ a.rPupil ≤ 90) ∧ (5 ≤ a.lPupil ∧ a.lPupil ≤ 90)

instance (a : FullArgs) : Decidable a.valid := by
  unfold FullArgs.valid
  infer_instance

/-- The invariant of the session: a set `present` flag comes with an open
handle. -/
def EyesI2C.handleOpenIfPresent (s : EyesI2C) : Prop :=
  s.present ≠ 0 → 0 ≤ s.I2Cfile

instance (s : EyesI2C) : Decidable s.handleOpenIfPresent := by
  unfold EyesI2C.handleOpenIfPresent
  infer_instance

/-- A valid eye state with every field away from its default. -/
def argsA : FullArgs :=
  { rState := 3, lState := 2, rLid := 2, lLid := 1, rMove := 1, lMove := 2,
    rPos := 8, lPos := 5, rBlink := 3, lBlink := 1, rPupil := 90, lPupil := 5 }

/-! ## Runs of the loop -/

/-- The two flags agree: the shared `connected` is non-zero exactly when the
session's `present` is. -/
def FlagsAgree (d : Daemon) : Prop :=
  d.eyes.connected ≠ 0 ↔ d.eyesCtl.present ≠ 0

instance (d : Daemon) : Decidable (FlagsAgree d) := by
  unfold FlagsAgree
  infer_instance

/-- Consecutive iterations of `while (1)` with no external write in between:
the state at the tick boundary that follows them. -/
def runTicks : List TickEnv → Daemon → Daemon
  | [], d => d
  | env :: envs, d => runTicks envs (loopBody env d).1

/-- The variables at the moment a tick calls `usleep`: in the disconnected
branch right after `shmData->eyes.connected = 0` and before the scan, in the
connected branch after the send, if any, has been handled. -/
def stateAtSleep (env : TickEnv) (d : Daemon) : Daemon :=
  if d.eyesCtl.present = 0 then
    { d with eyes := { d.eyes with connected := 0 } }
  else
    (loopBody env d).1

/-! ## Bytes and the checksum loop -/

theorem toUChar_natCast (n : Nat) : toUChar (n : Int) = n % 256 := by
  unfold toUChar
  omega

theorem toUChar_lt (x : Int) : toUChar x < 256 := by
  unfold toUChar
  omega

theorem xor_lt_256 {a b : Nat} (ha : a < 256) (hb : b < 256) : a ^^^ b < 256 :=
  Nat.xor_lt_two_pow (n := 8) ha hb

theorem length_eq_twelve (p : List Nat) (h : p.length = 12) :
    ∃ a0 a1 a2 a3 a4 a5 a6 a7 a8 a9 a10 a11,
      p = [a0, a1, a2, a3, a4, a5, a6, a7, a8, a9, a10, a11] := by
  match p, h with
  | [a0, a1, a2, a3, a4, a5, a6, a7, a8, a9, a10, a11], _ =>
    exact ⟨a0, a1, a2, a3, a4, a5, a6, a7, a8, a9, a10, a11, rfl⟩

/-- The checksum loop keeps bytes 0 through 10 and stores their exclusive-or
(bytes 1 through 10) in byte 11. -/
theorem checksumLoop_eq (p : List Nat) (hlen : p.length = 12) (hbyte : ∀ b ∈ p, b < 256) :
    checksumLoop p = p.take 11 ++ [xorBytes1to10 p] := by
  obtain ⟨a0, a1, a2, a3, a4, a5, a6, a7, a8, a9, a10, a11, rfl⟩ := length_eq_twelve p hlen
  simp only [List.mem_cons, List.mem_singleton, forall_eq_or_imp, forall_eq,
    List.not_mem_nil] at hbyte
  obtain ⟨h0, h1, h2, h3, h4, h5, h6, h7, h8, h9, h10, h11, -⟩ := hbyte
  have e1 := xor_lt_256 (Nat.zero_lt_succ 255) h1
  have e2 := xor_lt_256 e1 h2
  have e3 := xor_lt_256 e2 h3
  have e4 := xor_lt_256 e3 h4
  have e5 := xor_lt_256 e4 h5
  have e6 := xor_lt_256 e5 h6
  have e7 := xor_lt_256 e6 h7
  have e8 := xor_lt_256 e7 h8
  have e9 := xor_lt_256 e8 h9
  have e10 := xor_lt_256 e9 h10
  simp [checksumLoop, List.range', List.foldl, PKT_CHECKSUM, toUChar_natCast, xorBytes1to10] at *
  simp [Nat.mod_eq_of_lt, *]

theorem checksum_of_written (p q : List Nat) (hlen : p.length = 12) (hbyte : ∀ b ∈ p, b < 256)
    (hq : q = checksumLoop p) :
    q.length = 12 ∧ q.getD 11 0 = xorBytes1to10 q ∧ ∀ i, i < 11 → q.getD i 0 = p.getD i 0 := by
  obtain ⟨a0, a1, a2, a3, a4, a5, a6, a7, a8, a9, a10, a11, rfl⟩ := length_eq_twelve p hlen
  rw [checksumLoop_eq _ hlen hbyte] at hq
  subst hq
  refine ⟨by simp, by simp [xorBytes1to10], ?_⟩
  intro i hi
  interval_cases i <;> simp

/-! ## The packets the session builds -/

theorem encodeStandard_lt (a b c d : Int) : encodeStandard a b c d < 256 := by
  unfold encodeStandard orAssign
  exact toUChar_lt _

theorem encodePosition_lt (a b : Int) : encodePosition a b < 256 := by
  unfold encodePosition orAssign
  exact toUChar_lt _

theorem encodePupil_lt (a b : Int) : encodePupil a b < 256 := by
  unfold encodePupil orAssign
  exact toUChar_lt _

theorem fullPacket_length (a : FullArgs) : (fullPacket a).length = 12 := by
  simp [fullPacket, zeroPacket, EYES_PACKET_SIZE]

theorem fullPacket_bytes (a : FullArgs) : ∀ b ∈ fullPacket a, b < 256 := by
  have h1 := encodeStandard_lt 1 a.rState 1 a.lState
  have h2 := encodeStandard_lt 1 a.rLid 1 a.lLid
  have h3 := encodeStandard_lt 1 a.rMove 1 a.lMove
  have h4 := encodeStandard_lt 1 a.rBlink 1 a.lBlink
  have h5 := encodePosition_lt 1 a.rPos
  have h6 := encodePosition_lt 1 a.lPos
  have h7 := encodePupil_lt 1 a.rPupil
  have h8 := encodePupil_lt 1 a.lPupil
  have h9 : toUChar EYES_CMD_HEADER < 256 := toUChar_lt _
  simp [fullPacket, zeroPacket, EYES_PACKET_SIZE, PKT_HEADER, PKT_EYESTATE, PKT_LID, PKT_MOVE,
    PKT_POS_R, PKT_POS_L, PKT_BLINK, PKT_PUPIL_R, PKT_PUPIL_L, List.replicate, *]

theorem eyeStatePacket_length (r l : Int) : (eyeStatePacket r l).length = 12 := by
  simp [eyeStatePacket, zeroPacket, EYES_PACKET_SIZE]

theorem eyeStatePacket_bytes (r l : Int) : ∀ b ∈ eyeStatePacket r l, b < 256 := by
  have h1 := encodeStandard_lt 1 r 1 l
  have h9 : toUChar EYES_CMD_HEADER < 256 := toUChar_lt _
  simp [eyeStatePacket, zeroPacket, EYES_PACKET_SIZE, PKT_HEADER, PKT_EYESTATE, List.replicate, *]

/-! ## Traces of the send operations -/

theorem sendFullCalls_append (t u : List Event) :
    sendFullCalls (t ++ u) = sendFullCalls t ++ sendFullCalls u := by
  induction t with
  | nil => rfl
  | cons e t ih => cases e <;> simp [sendFullCalls, ih]

theorem writtenPackets_append (t u : List Event) :
    writtenPackets (t ++ u) = writtenPackets t ++ writtenPackets u := by
  induction t with
  | nil => rfl
  | cons e t ih => cases e <;> simp [writtenPackets, ih]

/-- What `sendCommand` hands to the write transaction: nothing unless the
device is present with an open handle and the lock was obtained, else the
buffer after the checksum loop. -/
theorem writtenPackets_sendCommand (env : SendEnv) (s : EyesI2C) (p : List Nat) :
    writtenPackets (sendCommand env s p).trace =
      if s.present = 0 ∨ s.I2Cfile < 0 ∨ env.lockSts ≠ 0 then [] else [checksumLoop p] := by
  unfold sendCommand
  by_cases h1 : s.present = 0 ∨ s.I2Cfile < 0
  · rcases h1 with h | h <;> simp [h, writtenPackets]
  · have h1' := h1
    push_neg at h1
    by_cases h2 : env.lockSts = 0
    · by_cases h3 : env.status < 0 <;> simp [h1', h1.1, not_lt.mpr h1.2, h2, h3, writtenPackets]
    · simp [h1', h1.1, not_lt.mpr h1.2, h2, writtenPackets]

theorem writtenPackets_sendFullCommand (env : SendEnv) (s : EyesI2C) (a : FullArgs) :
    writtenPackets (sendFullCommand env s a).trace =
      if s.present = 0 ∨ s.I2Cfile < 0 ∨ env.lockSts ≠ 0 then []
      else [checksumLoop (fullPacket a)] := by
  rw [← writtenPackets_sendCommand]
  rfl

theorem sendFullCalls_sendCommand (env : SendEnv) (s : EyesI2C) (p : List Nat) :
    sendFullCalls (sendCommand env s p).trace = [] := by
  unfold sendCommand
  split_ifs <;> simp [sendFullCalls]

theorem sendFullCalls_sendFullCommand (env : SendEnv) (s : EyesI2C) (a : FullArgs) :
    sendFullCalls (sendFullCommand env s a).trace = [a] := by
  simp [sendFullCommand, sendFullCalls, sendFullCalls_sendCommand]

/-- A send on a present session with an open handle, the lock obtained and the
transaction succeeding. -/
theorem sendFullCommand_ok (env : SendEnv) (s : EyesI2C) (a : FullArgs)
    (hp : s.present ≠ 0) (hf : 0 ≤ s.I2Cfile) (hl : env.lockSts = 0) (hs : 0 ≤ env.status) :
    (sendFullCommand env s a).ret = 0 ∧ (sendFullCommand env s a).session = s ∧
    writtenPackets (sendFullCommand env s a).trace = [checksumLoop (fullPacket a)] := by
  simp [sendFullCommand, sendCommand, hp, not_lt.mpr hf, hl, not_lt.mpr hs, writtenPackets]

/-! ## Claim C1: the checksum on the wire -/

/-- Claim C1: for every 12-byte packet passed to `sendCommand` while the device
is present with an open handle, the packet handed to the write transaction (one
is handed over as soon as the bus lock is obtained) has twelve bytes, keeps
bytes 0 through 10 of the caller, and has byte 11 equal to the exclusive-or of
its own bytes 1 through 10, whatever bytes 0 and 11 held on entry; the same
holds for every packet written by `sendFullCommand` and by `sendEyeState`. -/
theorem sendCommand_checksum (env : SendEnv) (s : EyesI2C) (p : List Nat)
    (hlen : p.length = 12) (hbyte : ∀ b ∈ p, b < 256)
    (hpresent : s.present ≠ 0) (hfile : 0 ≤ s.I2Cfile) :
    (env.lockSts = 0 → ∃ q, writtenPackets (sendCommand env s p).trace = [q]) ∧
    (∀ q ∈ writtenPackets (sendCommand env s p).trace,
      q.length = 12 ∧ q.getD 11 0 = xorBytes1to10 q ∧ ∀ i, i < 11 → q.getD i 0 = p.getD i 0) ∧
    (∀ a, ∀ q ∈ writtenPackets (sendFullCommand env s a).trace,
      q.getD 11 0 = xorBytes1to10 q ∧ ∀ i, i < 11 → q.getD i 0 = (fullPacket a).getD i 0) ∧
    (∀ r l, ∀ q ∈ writtenPackets (sendEyeState env s r l).trace,
      q.getD 11 0 = xorBytes1to10 q ∧
        ∀ i, i < 11 → q.getD i 0 = (eyeStatePacket r l).getD i 0) := by
  refine ⟨?_, ?_, ?_, ?_⟩
  · intro hl
    refine ⟨checksumLoop p, ?_⟩
    rw [writtenPackets_sendCommand]
    simp [hpresent, not_lt.mpr hfile, hl]
  · intro q hq
    rw [writtenPackets_sendCommand] at hq
    split at hq
    · simp at hq
    · exact checksum_of_written p q hlen hbyte (by simpa using hq)
  · intro a q hq
    rw [writtenPackets_sendFullCommand] at hq
    split at hq
    · simp at hq
    · exact (checksum_of_written _ q (fullPacket_length a) (fullPacket_bytes a)
        (by simpa using hq)).2
  · intro r l q hq
    have hq' : q ∈ writtenPackets (sendCommand env s (eyeStatePacket r l)).trace := hq
    rw [writtenPackets_sendCommand] at hq'
    split at hq'
    · simp at hq'
    · exact (checksum_of_written _ q (eyeStatePacket_length r l) (eyeStatePacket_bytes r l)
        (by simpa using hq')).2

/-- Instance of C1: a buffer with a stale checksum byte sent on a present
session; the packet on the wire ends in `0x0B`, the exclusive-or of 1 .. 10. -/
theorem sendCommand_checksum_witness :
    stalePacket.length = 12 ∧ (∀ b ∈ stalePacket, b < 256) ∧
    sessionUp.present ≠ 0 ∧ 0 ≤ sessionUp.I2Cfile ∧
    writtenPackets (sendCommand envAllOk.send sessionUp stalePacket).trace
      = [[0x11, 1, 2, 3, 4, 5, 6, 7, 8, 9, 10, 0x0B]] ∧
    ∀ q ∈ writtenPackets (sendCommand envAllOk.send sessionUp stalePacket).trace,
      q.length = 12 ∧ q.getD 11 0 = xorBytes1to10 q ∧
        ∀ i, i < 11 → q.getD i 0 = stalePacket.getD i 0 :=
  ⟨by decide, by decide, by decide, by decide, by decide,
    (sendCommand_checksum envAllOk.send sessionUp stalePacket (by decide) (by decide)
      (by decide) (by decide)).2.1⟩

/-! ## Claims C2 and C3: the pupil byte -/

theorem pupil_bits (e : Int) (h0 : 0 ≤ e) (h1 : e ≤ 85) :
    orAssign 0 (Int.land e PUPIL_VAL_MASK) = e.toNat ∧
    orAssign (orAssign 0 ((1 : Int) <<< PUPIL_SET_BIT)) (Int.land e PUPIL_VAL_MASK)
      = 128 + e.toNat := by
  interval_cases e <;> exact ⟨by rfl, by rfl⟩

theorem low7_small (n : Nat) (h : n ≤ 85) :
    n &&& 0x7F = n ∧ (128 + n) &&& 0x7F = n ∧
    n.testBit 7 = false ∧ (128 + n).testBit 7 = true := by
  interval_cases n <;> decide

theorem clamp_pupil_range (pupil : Int) :
    0 ≤ clamp (clamp pupil 5 90 - 5) 0 85 ∧ clamp (clamp pupil 5 90 - 5) 0 85 ≤ 85 := by
  unfold clamp
  split_ifs <;> omega

theorem clamp_range (w : Int) : 0 ≤ clamp w 0 85 ∧ clamp w 0 85 ≤ 85 := by
  unfold clamp
  split_ifs <;> omega

/-- A result that fits an `int` is stored unchanged. -/
theorem wrapInt32_of_fits (x : Int) (h0 : INT_MIN ≤ x) (h1 : x ≤ INT_MAX) :
    wrapInt32 x = x := by
  unfold INT_MIN at h0
  unfold INT_MAX at h1
  unfold wrapInt32
  omega

/-- The byte `encodePupil` returns, as a number, for every input: 128 when
`set` is non-zero, plus the stored difference `pupil - 5` clamped to 0 .. 85. -/
theorem encodePupil_eq_stored (set pupil : Int) :
    encodePupil set pupil =
      (if set ≠ 0 then 128 else 0) + (clamp (wrapInt32 (pupil - 5)) 0 85).toNat := by
  generalize hw : wrapInt32 (pupil - 5) = w
  have hc : clamp w 0 85 =
      (if (if w < 0 then 0 else w) > 85 then 85 else (if w < 0 then 0 else w)) := by
    unfold clamp
    split_ifs <;> omega
  obtain ⟨h0, h1⟩ := clamp_range w
  rw [hc] at h0 h1 ⊢
  generalize he : (if (if w < 0 then 0 else w) > 85 then 85
        else (if w < 0 then (0 : Int) else w)) = e at h0 h1
  obtain ⟨k0, k1⟩ := pupil_bits e h0 h1
  unfold encodePupil
  by_cases hs : set = 0
  · simp only [hs, ne_eq, not_true_eq_false, ite_false, Nat.zero_add]
    rw [hw, he, k0]
  · simp only [hs, ne_eq, not_false_eq_true, ite_true]
    rw [hw, he, k1]

/-- Bit 7 of the pupil byte is the set flag, for every input. -/
theorem encodePupil_bit7 (set pupil : Int) :
    (encodePupil set pupil).testBit 7 = decide (set ≠ 0) := by
  obtain ⟨h0, h1⟩ := clamp_range (wrapInt32 (pupil - 5))
  have hn : (clamp (wrapInt32 (pupil - 5)) 0 85).toNat ≤ 85 := by omega
  obtain ⟨-, -, c, d⟩ := low7_small _ hn
  rw [encodePupil_eq_stored]
  by_cases hs : set = 0
  · simp only [hs, ne_eq, not_true_eq_false, ite_false, decide_False, Nat.zero_add]
    exact c
  · simp only [hs, ne_eq, not_false_eq_true, ite_true, decide_True]
    exact d

/-- The byte `encodePupil` returns when `pupil - 5` fits an `int`: 128 when
`set` is non-zero, plus the doubly clamped value. -/
theorem encodePupil_eq (set pupil : Int) (hlo : INT_MIN + 5 ≤ pupil) (hhi : pupil ≤ INT_MAX) :
    encodePupil set pupil =
      (if set ≠ 0 then 128 else 0) + (clamp (clamp pupil 5 90 - 5) 0 85).toNat := by
  have hw : wrapInt32 (pupil - 5) = pupil - 5 :=
    wrapInt32_of_fits _ (by omega) (by unfold INT_MAX at hhi ⊢; omega)
  have hc : clamp (pupil - 5) 0 85 = clamp (clamp pupil 5 90 - 5) 0 85 := by
    unfold clamp
    split_ifs <;> omega
  rw [encodePupil_eq_stored, hw, hc]

theorem encodePupil_fields (set pupil : Int) (hlo : INT_MIN + 5 ≤ pupil)
    (hhi : pupil ≤ INT_MAX) :
    (encodePupil set pupil).testBit 7 = decide (set ≠ 0) ∧
    ((encodePupil set pupil &&& 0x7F : Nat) : Int) = clamp (clamp pupil 5 90 - 5) 0 85 := by
  obtain ⟨h0, h1⟩ := clamp_pupil_range pupil
  have hn : (clamp (clamp pupil 5 90 - 5) 0 85).toNat ≤ 85 := by omega
  obtain ⟨a, b, -, -⟩ := low7_small _ hn
  refine ⟨encodePupil_bit7 set pupil, ?_⟩
  rw [encodePupil_eq set pupil hlo hhi]
  by_cases hs : set = 0
  · simp only [hs, ne_eq, not_true_eq_false, ite_false, Nat.zero_add]
    rw [a]; omega
  · simp only [hs, ne_eq, not_false_eq_true, ite_true]
    rw [b]; omega

/-- Where `pupil - 5` fits an `int`, that is for every `int` from
`INT_MIN + 5` up, and for every `set` flag: bit 7 of `encodePupil set pupil` is
1 exactly when `set` is non-zero, and its low seven bits equal
`clamp (clamp pupil 5 90 - 5) 0 85`; the value is 0 for 5, 85 for 90, 0 for 3
and 85 for 95. -/
theorem encodePupil_in_range (set pupil : Int) (hlo : INT_MIN + 5 ≤ pupil)
    (hhi : pupil ≤ INT_MAX) :
    ((encodePupil set pupil).testBit 7 = decide (set ≠ 0)) ∧
    (((encodePupil set pupil &&& 0x7F : Nat) : Int) = clamp (clamp pupil 5 90 - 5) 0 85) ∧
    (encodePupil set 5 &&& 0x7F = 0) ∧ (encodePupil set 90 &&& 0x7F = 85) ∧
    (encodePupil set 3 &&& 0x7F = 0) ∧ (encodePupil set 95 &&& 0x7F = 85) := by
  have hv : ∀ q : Int, -100 ≤ q → q ≤ 100 →
      ((encodePupil set q &&& 0x7F : Nat) : Int) = clamp (clamp q 5 90 - 5) 0 85 := by
    intro q h0 h1
    exact (encodePupil_fields set q (by unfold INT_MIN; omega) (by unfold INT_MAX; omega)).2
  refine ⟨encodePupil_bit7 set pupil, (encodePupil_fields set pupil hlo hhi).2, ?_, ?_, ?_, ?_⟩
  · have := hv 5 (by decide) (by decide); simp [clamp] at this; exact_mod_cast this
  · have := hv 90 (by decide) (by decide); simp [clamp] at this; exact_mod_cast this
  · have := hv 3 (by decide) (by decide); simp [clamp] at this; exact_mod_cast this
  · have := hv 95 (by decide) (by decide); simp [clamp] at this; exact_mod_cast this

/-- Claim C2, the code at the failing input: for `pupil = INT_MIN` (and up to
`INT_MIN + 4`) the difference `pupil - 5` does not fit an `int`; the stored
value is large and positive, the upper clamp fires, and the low seven bits of
the byte are 85 where the claim's double clamp gives 0.  Bit 7 is still the set
flag. -/
theorem encodePupil_wraps_below :
    wrapInt32 (INT_MIN - 5) = 2147483643 ∧
    encodePupil 1 INT_MIN = 0xD5 ∧ encodePupil 0 INT_MIN = 0x55 ∧
    ((encodePupil 1 INT_MIN &&& 0x7F : Nat) : Int) = 85 ∧
    clamp (clamp INT_MIN 5 90 - 5) 0 85 = 0 ∧
    ((encodePupil 1 (INT_MIN + 4) &&& 0x7F : Nat) : Int) = 85 ∧
    clamp (clamp (INT_MIN + 4) 5 90 - 5) 0 85 = 0 ∧
    ((encodePupil 1 (INT_MIN + 5) &&& 0x7F : Nat) : Int) = 0 := by
  decide

/-- Claim C3: for every pupil value `p` with `5 ≤ p ≤ 90` and every `set` flag,
the low seven bits of `encodePupil set p` plus 5 give back `p`. -/
theorem encodePupil_roundtrip (set p : Int) (h5 : 5 ≤ p) (h90 : p ≤ 90) :
    ((encodePupil set p &&& 0x7F : Nat) : Int) + 5 = p := by
  have hc : clamp (clamp p 5 90 - 5) 0 85 = p - 5 := by
    unfold clamp; split_ifs <;> omega
  rw [(encodePupil_fields set p (by unfold INT_MIN; omega) (by unfold INT_MAX; omega)).2, hc]
  omega

/-- Instance of C3 at `p = 40` with the set flag on: the byte is `0xA3`. -/
theorem encodePupil_roundtrip_witness :
    (5 : Int) ≤ 40 ∧ (40 : Int) ≤ 90 ∧ encodePupil 1 40 = 0xA3 ∧
    ((encodePupil 1 40 &&& 0x7F : Nat) : Int) + 5 = 40 :=
  ⟨by decide, by decide, by decide, encodePupil_roundtrip 1 40 (by decide) (by decide)⟩

/-! ## Claim C4: the layout of the full packet -/

/-- Claim C4: for every twelve input values the packet `sendFullCommand` builds
has twelve bytes, byte 0 the header `0xBB`, bytes 1, 3, 4, 7 the standard
encodings of state, lid, move and blink, bytes 5 and 6 the positions, bytes 8
and 9 the pupils (each with the set flag 1), and bytes 2 and 10 zero; every
packet `sendFullCommand` hands to the write transaction has these same bytes
0 through 10. -/
theorem fullPacket_layout (a : FullArgs) :
    (fullPacket a).length = 12 ∧
    (fullPacket a).getD 0 0 = 0xBB ∧
    (fullPacket a).getD 1 0 = encodeStandard 1 a.rState 1 a.lState ∧
    (fullPacket a).getD 2 0 = 0 ∧
    (fullPacket a).getD 3 0 = encodeStandard 1 a.rLid 1 a.lLid ∧
    (fullPacket a).getD 4 0 = encodeStandard 1 a.rMove 1 a.lMove ∧
    (fullPacket a).getD 5 0 = encodePosition 1 a.rPos ∧
    (fullPacket a).getD 6 0 = encodePosition 1 a.lPos ∧
    (fullPacket a).getD 7 0 = encodeStandard 1 a.rBlink 1 a.lBlink ∧
    (fullPacket a).getD 8 0 = encodePupil 1 a.rPupil ∧
    (fullPacket a).getD 9 0 = encodePupil 1 a.lPupil ∧
    (fullPacket a).getD 10 0 = 0 ∧
    (∀ env s, ∀ q ∈ writtenPackets (sendFullCommand env s a).trace,
      ∀ i, i < 11 → q.getD i 0 = (fullPacket a).getD i 0) := by
  have h : toUChar EYES_CMD_HEADER = 0xBB := by decide
  have hw : ∀ env s, ∀ q ∈ writtenPackets (sendFullCommand env s a).trace,
      ∀ i, i < 11 → q.getD i 0 = (fullPacket a).getD i 0 := by
    intro env s q hq
    rw [writtenPackets_sendFullCommand] at hq
    split at hq
    · simp at hq
    · exact (checksum_of_written _ q (fullPacket_length a) (fullPacket_bytes a)
        (by simpa using hq)).2.2
  refine ⟨fullPacket_length a, ?_, ?_, ?_, ?_, ?_, ?_, ?_, ?_, ?_, ?_, ?_, hw⟩
  all_goals simp [fullPacket, zeroPacket, EYES_PACKET_SIZE, PKT_HEADER, PKT_EYESTATE,
    PKT_LID, PKT_MOVE, PKT_POS_R, PKT_POS_L, PKT_BLINK, PKT_PUPIL_R, PKT_PUPIL_L,
    List.replicate, h]

/-! ## Claims C5 and C6: the standard and the position byte -/

/-- Claim C5: for `r` and `l` in 0 .. 3 and every pair of set flags, the byte
`encodeStandard setR r setL l` has bit 7 = (`setR` non-zero), bits 6-5 = `r`,
bit 3 = (`setL` non-zero), bits 2-1 = `l`, and bits 4 and 0 zero. -/
theorem encodeStandard_bits (setR r setL l : Int)
    (hr0 : 0 ≤ r) (hr3 : r ≤ 3) (hl0 : 0 ≤ l) (hl3 : l ≤ 3) :
    (encodeStandard setR r setL l).testBit 7 = decide (setR ≠ 0) ∧
    (((encodeStandard setR r setL l >>> 5) &&& 3 : Nat) : Int) = r ∧
    (encodeStandard setR r setL l).testBit 3 = decide (setL ≠ 0) ∧
    (((encodeStandard setR r setL l >>> 1) &&& 3 : Nat) : Int) = l ∧
    (encodeStandard setR r setL l).testBit 4 = false ∧
    (encodeStandard setR r setL l).testBit 0 = false := by
  unfold encodeStandard
  by_cases hR : setR = 0 <;> by_cases hL : setL = 0 <;>
    simp only [hR, hL, ne_eq, not_true_eq_false, not_false_eq_true, ite_true, ite_false,
      decide_True, decide_False] <;>
    interval_cases r <;> interval_cases l <;> decide

/-- Instance of C5: right value 3 (dilated), left value 2 (miotic), both set
flags on: the byte is `0xEC`. -/
theorem encodeStandard_bits_witness :
    (0 : Int) ≤ 3 ∧ (3 : Int) ≤ 3 ∧ (0 : Int) ≤ 2 ∧ (2 : Int) ≤ 3 ∧
    encodeStandard 1 3 1 2 = 0xEC ∧
    (encodeStandard 1 3 1 2).testBit 7 = decide ((1 : Int) ≠ 0) ∧
    (((encodeStandard 1 3 1 2 >>> 5) &&& 3 : Nat) : Int) = 3 ∧
    (encodeStandard 1 3 1 2).testBit 3 = decide ((1 : Int) ≠ 0) ∧
    (((encodeStandard 1 3 1 2 >>> 1) &&& 3 : Nat) : Int) = 2 ∧
    (encodeStandard 1 3 1 2).testBit 4 = false ∧
    (encodeStandard 1 3 1 2).testBit 0 = false :=
  ⟨by decide, by decide, by decide, by decide, by decide,
    encodeStandard_bits 1 3 1 2 (by decide) (by decide) (by decide) (by decide)⟩

/-- Claim C6: for every position code `pos` in 0 .. 15 and every set flag, the
byte `encodePosition set pos` has bit 7 = (`set` non-zero), bits 6-3 = `pos`
and bits 2-0 zero, so shifting right by 3 and masking with `0x0F` gives `pos`. -/
theorem encodePosition_bits (set pos : Int) (h0 : 0 ≤ pos) (h15 : pos ≤ 15) :
    (encodePosition set pos).testBit 7 = decide (set ≠ 0) ∧
    (((encodePosition set pos >>> 3) &&& 0x0F : Nat) : Int) = pos ∧
    (encodePosition set pos).testBit 2 = false ∧
    (encodePosition set pos).testBit 1 = false ∧
    (encodePosition set pos).testBit 0 = false := by
  unfold encodePosition
  by_cases hs : set = 0 <;>
    simp only [hs, ne_eq, not_true_eq_false, not_false_eq_true, ite_true, ite_false,
      decide_True, decide_False] <;>
    interval_cases pos <;> decide

/-- Instance of C6: position 8 (down-left) with the set flag on: `0xC0`. -/
theorem encodePosition_bits_witness :
    (0 : Int) ≤ 8 ∧ (8 : Int) ≤ 15 ∧ encodePosition 1 8 = 0xC0 ∧
    (encodePosition 1 8).testBit 7 = decide ((1 : Int) ≠ 0) ∧
    (((encodePosition 1 8 >>> 3) &&& 0x0F : Nat) : Int) = 8 ∧
    (encodePosition 1 8).testBit 2 = false ∧
    (encodePosition 1 8).testBit 1 = false ∧
    (encodePosition 1 8).testBit 0 = false :=
  ⟨by decide, by decide, by decide, encodePosition_bits 1 8 (by decide) (by decide)⟩

/-! ## Claim C7: change detection -/

theorem ite_one_ne_zero_iff (a : Prop) [Decidable a] (x : Int) :
    (if a then 1 else x) ≠ 0 ↔ a ∨ x ≠ 0 := by
  split_ifs with h <;> simp [h]

theorem eyesChanged_ne_zero_iff (prevEyes : PrevEyes) (eyes : Eyes) :
    eyesChanged prevEyes eyes ≠ 0 ↔
      (eyes.send_command ≠ 0 ∨
        prevEyes.right_state ≠ eyes.right_state ∨ prevEyes.right_lid ≠ eyes.right_lid ∨
        prevEyes.right_move ≠ eyes.right_move ∨ prevEyes.right_position ≠ eyes.right_position ∨
        prevEyes.right_blink ≠ eyes.right_blink ∨ prevEyes.right_pupil ≠ eyes.right_pupil ∨
        prevEyes.left_state ≠ eyes.left_state ∨ prevEyes.left_lid ≠ eyes.left_lid ∨
        prevEyes.left_move ≠ eyes.left_move ∨ prevEyes.left_position ≠ eyes.left_position ∨
        prevEyes.left_blink ≠ eyes.left_blink ∨ prevEyes.left_pupil ≠ eyes.left_pupil) := by
  unfold eyesChanged
  simp only [ite_one_ne_zero_iff]
  simp

theorem eyesChanged_eq_zero_iff (prevEyes : PrevEyes) (eyes : Eyes) :
    eyesChanged prevEyes eyes = 0 ↔ eyes.send_command = 0 ∧ SnapshotMatches prevEyes eyes := by
  have h := eyesChanged_ne_zero_iff prevEyes eyes
  unfold SnapshotMatches
  constructor
  · intro h0
    have h1 := mt h.mpr (not_not.mpr h0)
    omega
  · intro h0
    by_contra h1
    have h2 := h.mp h1
    omega

/-- Claim C7: `eyesChanged` returns non-zero if and only if `send_command` is
non-zero or one of the twelve snapshot fields differs from the live field, and
its result does not depend on the `connected` flag. -/
theorem eyesChanged_iff (prevEyes : PrevEyes) (eyes : Eyes) :
    (eyesChanged prevEyes eyes ≠ 0 ↔
      (eyes.send_command ≠ 0 ∨
        prevEyes.right_state ≠ eyes.right_state ∨ prevEyes.right_lid ≠ eyes.right_lid ∨
        prevEyes.right_move ≠ eyes.right_move ∨ prevEyes.right_position ≠ eyes.right_position ∨
        prevEyes.right_blink ≠ eyes.right_blink ∨ prevEyes.right_pupil ≠ eyes.right_pupil ∨
        prevEyes.left_state ≠ eyes.left_state ∨ prevEyes.left_lid ≠ eyes.left_lid ∨
        prevEyes.left_move ≠ eyes.left_move ∨ prevEyes.left_position ≠ eyes.left_position ∨
        prevEyes.left_blink ≠ eyes.left_blink ∨ prevEyes.left_pupil ≠ eyes.left_pupil)) ∧
    (∀ c : Int, eyesChanged prevEyes { eyes with connected := c } = eyesChanged prevEyes eyes) :=
  ⟨eyesChanged_ne_zero_iff prevEyes eyes, fun _ => rfl⟩

/-! ## The connected tick -/

/-- A connected tick that sees a change and whose send succeeds. -/
theorem loopBody_changed_ok (env : TickEnv) (s : EyesI2C) (eyes : Eyes) (prevEyes : PrevEyes)
    (hp : s.present ≠ 0) (hf : 0 ≤ s.I2Cfile)
    (hc : eyesChanged prevEyes eyes ≠ 0)
    (hl : env.send.lockSts = 0) (hs : 0 ≤ env.send.status) :
    (loopBody env ⟨s, eyes, prevEyes⟩).1
      = ⟨s, { eyes with send_command := 0 }, initPrevEyes eyes⟩ ∧
    sendFullCalls (loopBody env ⟨s, eyes, prevEyes⟩).2 = [liveArgs eyes] ∧
    writtenPackets (loopBody env ⟨s, eyes, prevEyes⟩).2
      = [checksumLoop (fullPacket (liveArgs eyes))] := by
  obtain ⟨h1, h2, h3⟩ := sendFullCommand_ok env.send s (liveArgs eyes) hp hf hl hs
  have h4 := sendFullCalls_sendFullCommand env.send s (liveArgs eyes)
  unfold loopBody
  simp only [hp, hc, h1, h2, if_false, if_true, ne_eq, not_false_eq_true, lt_self_iff_false,
    not_true_eq_false, sendFullCalls_append, writtenPackets_append, h3, h4]
  refine ⟨?_, rfl, rfl⟩
  rfl

/-- A connected tick that sees no change. -/
theorem loopBody_unchanged (env : TickEnv) (d : Daemon)
    (hp : d.eyesCtl.present ≠ 0) (hc : eyesChanged d.prevEyes d.eyes = 0) :
    loopBody env d = (d, [Event.usleep 50000]) := by
  simp [loopBody, hp, hc]

theorem snapshotMatches_init (eyes : Eyes) : SnapshotMatches (initPrevEyes eyes) eyes := by
  simp [SnapshotMatches, initPrevEyes]

theorem get_put (eyes : Eyes) (f : Field) (v : Int) : (eyes.put f v).get f = v := by
  cases f <;> rfl

theorem changed_after_put (prevEyes : PrevEyes) (eyes : Eyes) (f : Field) (v : Int)
    (hsnap : SnapshotMatches prevEyes eyes) (hv : v ≠ eyes.get f) :
    eyesChanged prevEyes (eyes.put f v) ≠ 0 := by
  intro h
  rw [eyesChanged_eq_zero_iff] at h
  obtain ⟨-, h⟩ := h
  unfold SnapshotMatches at hsnap h
  cases f <;> simp only [Eyes.put, Eyes.get] at h hv <;> omega

/-! ## Claim C8: a single mutated field is sent once -/

/-- Claim C9: in a connected state (handle open), whatever the snapshot and in
particular when it equals the live state, once `send_command` is set to a
non-zero value the next tick, with the lock obtained and the write succeeding,
calls `sendFullCommand` exactly once with the live values and writes exactly one
packet, and leaves `send_command` cleared, the twelve live fields and
`connected` unchanged, and the snapshot equal to the live state. -/
theorem forced_resend (env : TickEnv) (d : Daemon) (c : Int)
    (hconn : d.eyesCtl.present ≠ 0) (hfile : 0 ≤ d.eyesCtl.I2Cfile)
    (hc : c ≠ 0)
    (hlock : env.send.lockSts = 0) (hok : 0 ≤ env.send.status) :
    sendFullCalls (loopBody env { d with eyes := { d.eyes with send_command := c } }).2
        = [liveArgs d.eyes] ∧
    writtenPackets (loopBody env { d with eyes := { d.eyes with send_command := c } }).2
        = [checksumLoop (fullPacket (liveArgs d.eyes))] ∧
    (loopBody env { d with eyes := { d.eyes with send_command := c } }).1.eyes.send_command = 0 ∧
    (∀ f, (loopBody env { d with eyes := { d.eyes with send_command := c } }).1.eyes.get f
        = d.eyes.get f) ∧
    (loopBody env { d with eyes := { d.eyes with send_command := c } }).1.eyes.connected
        = d.eyes.connected ∧
    SnapshotMatches (loopBody env { d with eyes := { d.eyes with send_command := c } }).1.prevEyes
      d.eyes := by
  have hch : eyesChanged d.prevEyes { d.eyes with send_command := c } ≠ 0 := by
    simp [eyesChanged, hc]
  obtain ⟨h1, h2, h3⟩ := loopBody_changed_ok env d.eyesCtl { d.eyes with send_command := c }
    d.prevEyes hconn hfile hch hlock hok
  refine ⟨h2, h3, ?_, ?_, ?_, ?_⟩
  · rw [h1]
  · intro f; rw [h1]; cases f <;> rfl
  · rw [h1]
  · rw [h1]; exact snapshotMatches_init _


/-- Instance of C9: `send_command` set to 1 while the snapshot equals the live
state. -/
theorem forced_resend_witness :
    daemonUp.eyesCtl.present ≠ 0 ∧ 0 ≤ daemonUp.eyesCtl.I2Cfile ∧
    SnapshotMatches daemonUp.prevEyes daemonUp.eyes ∧ (1 : Int) ≠ 0 ∧
    envAllOk.send.lockSts = 0 ∧ 0 ≤ envAllOk.send.status ∧
    sendFullCalls
        (loopBody envAllOk { daemonUp with eyes := { daemonUp.eyes with send_command := 1 } }).2
      = [liveArgs daemonUp.eyes] ∧
    (loopBody envAllOk
        { daemonUp with eyes := { daemonUp.eyes with send_command := 1 } }).1.eyes.send_command
      = 0 :=
  ⟨by decide, by decide, by decide, by decide, by decide, by decide,
    (forced_resend envAllOk daemonUp 1 (by decide) (by decide) (by decide) (by decide)
      (by decide)).1,
    (forced_resend envAllOk daemonUp 1 (by decide) (by decide) (by decide) (by decide)
      (by decide)).2.2.1⟩

/-! ## Claim C10: the resend after a reconnect -/

/-- A scan that reports success leaves the session present with the handle of
the responding bus open. -/
theorem scanLoop_success (env : Int → BusEnv) (n : Nat) (s : EyesI2C) (tr : List Event)
    (h : (scanLoop env n s tr).ret ≠ 0) :
    (scanLoop env n s tr).session.present = 1 ∧ 0 ≤ (scanLoop env n s tr).session.I2Cfile := by
  induction n generalizing s tr with
  | zero => simp [scanLoop] at h
  | succ n ih =>
    unfold scanLoop at h ⊢
    simp only at h ⊢
    split_ifs at h ⊢ with h1 h2 h3 h4 h5
    · exact ih _ _ h
    · exact ih _ _ h
    · exact ⟨rfl, not_lt.mp h1⟩
    · exact ih _ _ h
    · exact ih _ _ h
    · exact ih _ _ h

/-- The value `scanForDevice` returns is the `present` flag it leaves. -/
theorem scanLoop_ret (env : Int → BusEnv) (n : Nat) (s : EyesI2C) (tr : List Event) :
    (scanLoop env n s tr).ret = (scanLoop env n s tr).session.present := by
  induction n generalizing s tr with
  | zero => rfl
  | succ n ih =>
    unfold scanLoop
    simp only
    split_ifs
    all_goals first | rfl | exact ih _ _

/-- The trace of a connected tick that sees a change: the send, then the
polling sleep, whatever the send returns. -/
theorem loopBody_changed_trace (env : TickEnv) (s : EyesI2C) (eyes : Eyes) (prevEyes : PrevEyes)
    (hp : s.present ≠ 0) (hc : eyesChanged prevEyes eyes ≠ 0) :
    (loopBody env ⟨s, eyes, prevEyes⟩).2
      = (sendFullCommand env.send s (liveArgs eyes)).trace ++ [Event.usleep 50000] := by
  unfold loopBody
  simp only [hp, hc, if_false, if_true, ne_eq, not_false_eq_true]
  split_ifs <;> rfl

/-- The three ways `sendCommand` ends: refused before any transaction, write
failed, write succeeded. -/
theorem sendCommand_cases (env : SendEnv) (s : EyesI2C) (p : List Nat) :
    ((s.present = 0 ∨ s.I2Cfile < 0 ∨ env.lockSts ≠ 0) ∧
      (sendCommand env s p).ret = -1 ∧ (sendCommand env s p).session = s ∧
      busTransactions (sendCommand env s p).trace = 0) ∨
    ((s.present ≠ 0 ∧ 0 ≤ s.I2Cfile ∧ env.lockSts = 0 ∧ env.status < 0) ∧
      (sendCommand env s p).ret = -2 ∧
      (sendCommand env s p).session = (if env.errno = 121 then { s with present := 0 } else s) ∧
      busTransactions (sendCommand env s p).trace = 1) ∨
    ((s.present ≠ 0 ∧ 0 ≤ s.I2Cfile ∧ env.lockSts = 0 ∧ 0 ≤ env.status) ∧
      (sendCommand env s p).ret = 0 ∧ (sendCommand env s p).session = s ∧
      busTransactions (sendCommand env s p).trace = 1) := by
  unfold sendCommand
  by_cases h1 : s.present = 0
  · left; simp [h1, busTransactions]
  by_cases h2 : s.I2Cfile < 0
  · left; simp [h2, busTransactions]
  by_cases h3 : env.lockSts = 0
  · by_cases h4 : env.status < 0
    · right; left
      simp [h1, h2, h3, h4, busTransactions, not_lt.mp h2]
    · right; right
      simp [h1, h2, h3, h4, busTransactions, not_lt.mp h2, not_lt.mp h4]
  · left; simp [h1, h2, h3, busTransactions]

theorem sendFullCommand_ret (env : SendEnv) (s : EyesI2C) (a : FullArgs) :
    (sendFullCommand env s a).ret = (sendCommand env s (fullPacket a)).ret := rfl

theorem sendFullCommand_session (env : SendEnv) (s : EyesI2C) (a : FullArgs) :
    (sendFullCommand env s a).session = (sendCommand env s (fullPacket a)).session := rfl

theorem busTransactions_sendFullCommand (env : SendEnv) (s : EyesI2C) (a : FullArgs) :
    busTransactions (sendFullCommand env s a).trace
      = busTransactions (sendCommand env s (fullPacket a)).trace := rfl

/-- A write that fails with errno 121 on a present session. -/
theorem sendFullCommand_remoteIO (env : SendEnv) (s : EyesI2C) (a : FullArgs)
    (hp : s.present ≠ 0) (hf : 0 ≤ s.I2Cfile) (hl : env.lockSts = 0)
    (hs : env.status < 0) (he : env.errno = 121) :
    (sendFullCommand env s a).ret = -2 ∧
    (sendFullCommand env s a).session = { s with present := 0 } := by
  simp [sendFullCommand, sendCommand, hp, not_lt.mpr hf, hl, hs, he]

/-- The disconnected tick: the ten-second wait, then the scan. -/
theorem loopBody_disconnected_trace (env : TickEnv) (d : Daemon) (hp : d.eyesCtl.present = 0) :
    (loopBody env d).2 = Event.usleep 10000000 :: (scanForDevice env.bus d.eyesCtl).trace := by
  unfold loopBody
  simp only [hp, if_true]
  split_ifs <;> rfl

theorem loopBody_disconnected_session (env : TickEnv) (d : Daemon)
    (hp : d.eyesCtl.present = 0) :
    (loopBody env d).1.eyesCtl = (scanForDevice env.bus d.eyesCtl).session := by
  unfold loopBody
  simp only [hp, if_true]
  split_ifs <;> rfl

/-- A scan calls no `sendFullCommand` and writes no packet. -/
theorem scanLoop_no_send (env : Int → BusEnv) (n : Nat) (s : EyesI2C) (tr : List Event) :
    sendFullCalls (scanLoop env n s tr).trace = sendFullCalls tr ∧
    writtenPackets (scanLoop env n s tr).trace = writtenPackets tr := by
  induction n generalizing s tr with
  | zero => exact ⟨rfl, rfl⟩
  | succ n ih =>
    unfold scanLoop
    simp only
    split_ifs
    all_goals
      first
      | (rw [(ih _ _).1, (ih _ _).2]
         simp [sendFullCalls_append, writtenPackets_append, sendFullCalls, writtenPackets])
      | simp [sendFullCalls_append, writtenPackets_append, sendFullCalls, writtenPackets]

/-! ## Claim C11: demotion on a remote I/O error -/

/-- Claim C11: in a connected tick that sees a change and whose write
transaction fails with errno 121, the same tick clears the shared `connected`
flag and the session's `present` flag (snapshot and live fields stay as they
were), and the following tick takes the disconnected branch: it waits ten
seconds, runs `scanForDevice` and calls no `sendFullCommand`. -/
theorem remoteIO_demotes (env env2 : TickEnv) (d : Daemon)
    (hconn : d.eyesCtl.present ≠ 0) (hfile : 0 ≤ d.eyesCtl.I2Cfile)
    (hchg : eyesChanged d.prevEyes d.eyes ≠ 0)
    (hlock : env.send.lockSts = 0) (hfail : env.send.status < 0)
    (herrno : env.send.errno = 121) :
    (loopBody env d).1.eyes.connected = 0 ∧
    (loopBody env d).1.eyesCtl.present = 0 ∧
    (loopBody env d).1.eyes = { d.eyes with connected := 0 } ∧
    (loopBody env d).1.prevEyes = d.prevEyes ∧
    (loopBody env2 (loopBody env d).1).2
      = Event.usleep 10000000 ::
          (scanForDevice env2.bus (loopBody env d).1.eyesCtl).trace ∧
    (loopBody env2 (loopBody env d).1).1.eyesCtl
      = (scanForDevice env2.bus (loopBody env d).1.eyesCtl).session ∧
    sendFullCalls (loopBody env2 (loopBody env d).1).2 = [] := by
  obtain ⟨h1, h2⟩ := sendFullCommand_remoteIO env.send d.eyesCtl (liveArgs d.eyes) hconn hfile
    hlock hfail herrno
  have hd : (loopBody env d).1
      = ⟨{ d.eyesCtl with present := 0 }, { d.eyes with connected := 0 }, d.prevEyes⟩ := by
    unfold loopBody
    simp [hconn, hchg, h1, h2]
  have hp0 : (loopBody env d).1.eyesCtl.present = 0 := by rw [hd]
  refine ⟨by rw [hd], hp0, by rw [hd], by rw [hd], loopBody_disconnected_trace env2 _ hp0,
    loopBody_disconnected_session env2 _ hp0, ?_⟩
  rw [loopBody_disconnected_trace env2 _ hp0]
  exact (scanLoop_no_send env2.bus 2 _ []).1

/-- Instance of C11: the right pupil was set to 40 and the write fails with
errno 121. -/
theorem remoteIO_demotes_witness :
    daemonUp.eyesCtl.present ≠ 0 ∧ 0 ≤ daemonUp.eyesCtl.I2Cfile ∧
    eyesChanged daemonUp.prevEyes (daemonUp.eyes.put Field.right_pupil 40) ≠ 0 ∧
    envFoundThenGone.send.lockSts = 0 ∧ envFoundThenGone.send.status < 0 ∧
    envFoundThenGone.send.errno = 121 ∧
    (loopBody envFoundThenGone
      { daemonUp with eyes := daemonUp.eyes.put Field.right_pupil 40 }).1.eyes.connected = 0 ∧
    (loopBody envFoundThenGone
      { daemonUp with eyes := daemonUp.eyes.put Field.right_pupil 40 }).1.eyesCtl.present = 0 :=
  ⟨by decide, by decide, by decide, by decide, by decide, by decide,
    (remoteIO_demotes envFoundThenGone envAllOk
      { daemonUp with eyes := daemonUp.eyes.put Field.right_pupil 40 }
      (by decide) (by decide) (by decide) (by decide) (by decide) (by decide)).1,
    (remoteIO_demotes envFoundThenGone envAllOk
      { daemonUp with eyes := daemonUp.eyes.put Field.right_pupil 40 }
      (by decide) (by decide) (by decide) (by decide) (by decide) (by decide)).2.1⟩


/-! ## Claim C12: `connected` against `present` -/

/-- Every tick re-establishes or keeps the agreement of the two flags: if
`connected` is non-zero exactly when `present` is before a tick, so it is after
it; after a disconnected tick it is so whatever held before. -/
theorem loopBody_flags_agree (env : TickEnv) (d : Daemon)
    (h : d.eyesCtl.present = 0 ∨ (d.eyes.connected ≠ 0 ↔ d.eyesCtl.present ≠ 0)) :
    ((loopBody env d).1.eyes.connected ≠ 0 ↔ (loopBody env d).1.eyesCtl.present ≠ 0) := by
  by_cases hp : d.eyesCtl.present = 0
  · unfold loopBody
    simp only [hp, if_true]
    split_ifs with h1
    · simp [h1]
    · have h2 : (scanForDevice env.bus d.eyesCtl).session.present = 0 := by
        by_contra h3; exact h1 h3
      simp [h2]
  · have hinv : d.eyes.connected ≠ 0 := by
      rcases h with h | h
      · exact absurd h hp
      · exact h.mpr hp
    by_cases hc : eyesChanged d.prevEyes d.eyes = 0
    · rw [loopBody_unchanged env d hp hc]
      exact ⟨fun _ => hp, fun _ => hinv⟩
    · unfold loopBody
      simp only [hp, hc, if_false, if_true, ne_eq, not_false_eq_true]
      rcases sendCommand_cases env.send d.eyesCtl (fullPacket (liveArgs d.eyes)) with
        ⟨-, hr, hs, -⟩ | ⟨-, hr, hs, -⟩ | ⟨-, hr, hs, -⟩
      · rw [sendFullCommand_ret, sendFullCommand_session, hr, hs]
        simp [hp, hinv]
      · rw [sendFullCommand_ret, sendFullCommand_session, hr, hs]
        by_cases he : env.send.errno = 121
        · simp [he]
        · simp [he, hp, hinv]
      · rw [sendFullCommand_ret, sendFullCommand_session, hr, hs]
        simp [hp, hinv, updatePrevEyes]

/-- On entry to the loop a session that is present has `connected` set. -/
theorem startup_present_connected (env0 : TickEnv) :
    (startup env0).1.eyesCtl.present = 0 ∨ FlagsAgree (startup env0).1 := by
  unfold startup
  simp only
  split_ifs with h
  · exact Or.inl h
  · rw [or_iff_not_imp_left]
    intro hp
    exact ⟨fun _ => hp, fun _ => one_ne_zero⟩

/-- Ticks keep the agreement of the two flags. -/
theorem runTicks_flags_agree (envs : List TickEnv) (d : Daemon) (h : FlagsAgree d) :
    FlagsAgree (runTicks envs d) := by
  induction envs generalizing d with
  | nil => exact h
  | cons env envs ih => exact ih _ (loopBody_flags_agree env d (Or.inr h))

/-- After at least one tick the two flags agree, if on entry a present session
had `connected` set. -/
theorem runTicks_cons_flags_agree (env1 : TickEnv) (envs : List TickEnv) (d : Daemon)
    (h : d.eyesCtl.present = 0 ∨ FlagsAgree d) :
    FlagsAgree (runTicks (env1 :: envs) d) :=
  runTicks_flags_agree envs _ (loopBody_flags_agree env1 d h)

/-- The two flags agree whenever a tick sleeps, if at its start a present
session had `connected` set. -/
theorem stateAtSleep_flags_agree (env : TickEnv) (d : Daemon)
    (h : d.eyesCtl.present = 0 ∨ FlagsAgree d) :
    FlagsAgree (stateAtSleep env d) := by
  unfold stateAtSleep
  split_ifs with hp
  · unfold FlagsAgree
    simp [hp]
  · exact loopBody_flags_agree env d h

/-- Claim C13 as stated fails: with the session present and the handle open,
a send whose `getI2CLock` fails returns -1. -/
theorem not_present_result_counterexample :
    ¬ ((sendFullCommand sendLockBusy sessionUp (liveArgs eyesDefault)).ret = -1 ↔
        (sessionUp.present = 0 ∨ sessionUp.I2Cfile < 0)) := by
  decide

/-- Claim C13, amended: `sendFullCommand` returns -1 exactly when `present` is
zero, or no handle is open, or the bus lock is not obtained; in these cases it
makes no bus transaction and leaves the session (`present` and the handle
included) unchanged, and with `present` zero it does nothing at all.  Every
other send makes exactly one transaction and returns 0 when the write
succeeds and -2 when it fails. -/
theorem sendFullCommand_results (env : SendEnv) (s : EyesI2C) (a : FullArgs) :
    ((sendFullCommand env s a).ret = -1 ↔
      (s.present = 0 ∨ s.I2Cfile < 0 ∨ env.lockSts ≠ 0)) ∧
    ((sendFullCommand env s a).ret = -1 →
      busTransactions (sendFullCommand env s a).trace = 0 ∧
      (sendFullCommand env s a).session = s) ∧
    ((s.present = 0 ∨ s.I2Cfile < 0) →
      (sendFullCommand env s a).trace = [Event.sendFullCall a]) ∧
    ((sendFullCommand env s a).ret ≠ -1 →
      busTransactions (sendFullCommand env s a).trace = 1 ∧
      ((sendFullCommand env s a).ret = 0 ∨ (sendFullCommand env s a).ret = -2) ∧
      ((sendFullCommand env s a).ret = 0 ↔ 0 ≤ env.status)) := by
  rw [sendFullCommand_ret, sendFullCommand_session, busTransactions_sendFullCommand]
  have hq : (s.present = 0 ∨ s.I2Cfile < 0) →
      (sendFullCommand env s a).trace = [Event.sendFullCall a] := by
    intro h
    simp [sendFullCommand, sendCommand, h]
  rcases sendCommand_cases env s (fullPacket a) with
    ⟨hc, hr, hs, ht⟩ | ⟨⟨c1, c2, c3, c4⟩, hr, hs, ht⟩ | ⟨⟨c1, c2, c3, c4⟩, hr, hs, ht⟩
  · rw [hr, hs, ht]
    exact ⟨⟨fun _ => hc, fun _ => rfl⟩, fun _ => ⟨rfl, rfl⟩, hq, fun h => absurd rfl h⟩
  · rw [hr, ht]
    refine ⟨⟨fun h => by omega, fun h => ?_⟩, fun h => by omega, hq, fun _ => ⟨rfl, Or.inr rfl, ?_⟩⟩
    · rcases h with h | h | h
      · exact absurd h c1
      · omega
      · exact absurd c3 h
    · constructor
      · intro h; omega
      · intro h; omega
  · rw [hr, hs, ht]
    refine ⟨⟨fun h => by omega, fun h => ?_⟩, fun h => by omega, hq, fun _ => ⟨rfl, Or.inl rfl, ?_⟩⟩
    · rcases h with h | h | h
      · exact absurd h c1
      · omega
      · exact absurd c3 h
    · exact ⟨fun _ => c4, fun _ => rfl⟩


/-! ## Claim C14: discovery -/

theorem triedBuses_append (t u : List Event) :
    triedBuses (t ++ u) = triedBuses t ++ triedBuses u := by
  induction t with
  | nil => rfl
  | cons e t ih => cases e <;> simp [triedBuses, ih]

theorem openedFds_append (t u : List Event) :
    openedFds (t ++ u) = openedFds t ++ openedFds u := by
  induction t with
  | nil => rfl
  | cons e t ih =>
    cases e <;> simp [openedFds, ih]
    split_ifs <;> simp

theorem closedFds_append (t u : List Event) :
    closedFds (t ++ u) = closedFds t ++ closedFds u := by
  induction t with
  | nil => rfl
  | cons e t ih => cases e <;> simp [closedFds, ih]

/-- One iteration of the scan loop on a bus that answers the probe. -/
theorem scanLoop_responds (env : Int → BusEnv) (n : Nat) (s : EyesI2C) (tr : List Event)
    (bus : Int) (hb : s.I2CBus = bus) (h : (env bus).responds) :
    scanLoop env (n + 1) s tr =
      ⟨1, { s with I2Cfile := (env bus).openFd, present := 1 },
        tr ++ [Event.openBus bus (env bus).openFd, Event.getI2CLock (env bus).lockSts,
          Event.probeRead (env bus).openFd (env bus).rdwrSts, Event.releaseI2CLock]⟩ := by
  subst hb
  obtain ⟨h1, h2, h3, h4, h5⟩ := h
  simp only [scanLoop]
  simp [not_lt.mpr h1, h2, h3, h4, h5]

/-- One iteration of the scan loop on a bus that does not answer: the handle,
if one was opened, is closed, `I2Cfile` is left negative and the loop goes on
with the next bus. -/
theorem scanLoop_no_answer (env : Int → BusEnv) (n : Nat) (s : EyesI2C) (tr : List Event)
    (bus : Int) (hb : s.I2CBus = bus) (h : ¬ (env bus).responds) :
    ∃ mid : List Event,
      scanLoop env (n + 1) s tr =
        scanLoop env n
          { s with I2CBus := bus + 1,
                   I2Cfile := if (env bus).openFd < 0 then (env bus).openFd else -1 }
          (tr ++ Event.openBus bus (env bus).openFd :: mid) ∧
      triedBuses mid = [] ∧ openedFds mid = [] ∧
      closedFds mid = (if (env bus).openFd < 0 then [] else [(env bus).openFd]) := by
  subst hb
  unfold BusEnv.responds at h
  simp only [scanLoop]
  by_cases h1 : (env s.I2CBus).openFd < 0
  · exact ⟨[], by simp [h1], rfl, rfl, by simp [h1, closedFds]⟩
  by_cases h2 : 0 ≤ (env s.I2CBus).slaveSts
  · by_cases h3 : (env s.I2CBus).lockSts = 0
    · by_cases h4 : 0 ≤ (env s.I2CBus).rdwrSts
      · have h5 : ¬ (env s.I2CBus).readByte = 0x01 := fun h5 =>
          h ⟨not_lt.mp h1, h2, h3, h4, h5⟩
        refine ⟨[Event.getI2CLock (env s.I2CBus).lockSts,
          Event.probeRead (env s.I2CBus).openFd (env s.I2CBus).rdwrSts, Event.releaseI2CLock,
          Event.closeFd (env s.I2CBus).openFd], ?_, rfl, rfl, ?_⟩
        · simp [h1, h2, h3, h4, h5]
        · simp [h1, closedFds]
      · refine ⟨[Event.getI2CLock (env s.I2CBus).lockSts,
          Event.probeRead (env s.I2CBus).openFd (env s.I2CBus).rdwrSts, Event.releaseI2CLock,
          Event.closeFd (env s.I2CBus).openFd], ?_, rfl, rfl, ?_⟩
        · simp [h1, h2, h3, h4]
        · simp [h1, closedFds]
    · refine ⟨[Event.getI2CLock (env s.I2CBus).lockSts,
        Event.closeFd (env s.I2CBus).openFd], ?_, rfl, rfl, ?_⟩
      · simp [h1, h2, h3]
      · simp [h1, closedFds]
  · refine ⟨[Event.closeFd (env s.I2CBus).openFd], ?_, rfl, rfl, ?_⟩
    · simp [h1, h2]
    · simp [h1, closedFds]

/-- The descriptor a bus contributes to the opened ones: its own when the
`open` succeeded, none otherwise. -/
theorem openedFds_openBus (bus fd : Int) (tr : List Event) :
    openedFds (Event.openBus bus fd :: tr) = (if fd < 0 then [] else [fd]) ++ openedFds tr := by
  by_cases h : fd < 0
  · simp [openedFds, h]
  · simp [openedFds, h, not_lt.mp h]

/-- Claim C14: `scanForDevice` tries bus 1, then bus 2.  It returns success
exactly when one of the two answers the probe (opens, is addressed, the lock is
obtained, the read succeeds and returns `0x01`); then `present` is 1,
`I2Cfile` is the handle of the first bus that answers, that handle is not
closed, and an earlier bus that opened but did not answer has had its handle
closed.  When neither answers, it returns 0 with `present` = 0 and
`I2Cfile` = -1 (`open` returning -1 when it fails), every handle it opened
closed. -/
theorem scanForDevice_spec (env : Int → BusEnv) (s : EyesI2C)
    (hopen : ∀ bus, (env bus).openFd < 0 → (env bus).openFd = -1) :
    ((scanForDevice env s).ret ≠ 0 ↔ ((env 1).responds ∨ (env 2).responds)) ∧
    ((env 1).responds →
      (scanForDevice env s).ret = 1 ∧ (scanForDevice env s).session.present = 1 ∧
      (scanForDevice env s).session.I2Cfile = (env 1).openFd ∧
      0 ≤ (scanForDevice env s).session.I2Cfile ∧
      triedBuses (scanForDevice env s).trace = [1] ∧
      openedFds (scanForDevice env s).trace = [(env 1).openFd] ∧
      closedFds (scanForDevice env s).trace = []) ∧
    (¬ (env 1).responds → (env 2).responds →
      (scanForDevice env s).ret = 1 ∧ (scanForDevice env s).session.present = 1 ∧
      (scanForDevice env s).session.I2Cfile = (env 2).openFd ∧
      0 ≤ (scanForDevice env s).session.I2Cfile ∧
      triedBuses (scanForDevice env s).trace = [1, 2] ∧
      openedFds (scanForDevice env s).trace
        = (if (env 1).openFd < 0 then [] else [(env 1).openFd]) ++ [(env 2).openFd] ∧
      closedFds (scanForDevice env s).trace
        = (if (env 1).openFd < 0 then [] else [(env 1).openFd])) ∧
    (¬ (env 1).responds → ¬ (env 2).responds →
      (scanForDevice env s).ret = 0 ∧ (scanForDevice env s).session.present = 0 ∧
      (scanForDevice env s).session.I2Cfile = -1 ∧
      triedBuses (scanForDevice env s).trace = [1, 2] ∧
      closedFds (scanForDevice env s).trace = openedFds (scanForDevice env s).trace) := by
  have hA : (env 1).responds →
      (scanForDevice env s).ret = 1 ∧ (scanForDevice env s).session.present = 1 ∧
      (scanForDevice env s).session.I2Cfile = (env 1).openFd ∧
      0 ≤ (scanForDevice env s).session.I2Cfile ∧
      triedBuses (scanForDevice env s).trace = [1] ∧
      openedFds (scanForDevice env s).trace = [(env 1).openFd] ∧
      closedFds (scanForDevice env s).trace = [] := by
    intro h
    unfold scanForDevice
    rw [scanLoop_responds env 1 _ [] 1 rfl h]
    have h0 : 0 ≤ (env 1).openFd := h.1
    simp [triedBuses, openedFds, closedFds, h0]
  have hB : ¬ (env 1).responds → (env 2).responds →
      (scanForDevice env s).ret = 1 ∧ (scanForDevice env s).session.present = 1 ∧
      (scanForDevice env s).session.I2Cfile = (env 2).openFd ∧
      0 ≤ (scanForDevice env s).session.I2Cfile ∧
      triedBuses (scanForDevice env s).trace = [1, 2] ∧
      openedFds (scanForDevice env s).trace
        = (if (env 1).openFd < 0 then [] else [(env 1).openFd]) ++ [(env 2).openFd] ∧
      closedFds (scanForDevice env s).trace
        = (if (env 1).openFd < 0 then [] else [(env 1).openFd]) := by
    intro h1 h2
    obtain ⟨mid, e1, t1, o1, c1⟩ := scanLoop_no_answer env 1 { s with I2CBus := 1 } [] 1 rfl h1
    unfold scanForDevice
    rw [e1, scanLoop_responds env 0 _ _ 2 rfl h2]
    have h0 : 0 ≤ (env 2).openFd := h2.1
    by_cases hx : (env 1).openFd < 0
    · simp [triedBuses, triedBuses_append, openedFds_append, closedFds_append,
        t1, o1, c1, openedFds, closedFds, h0, hx, not_le.mpr hx]
    · simp [triedBuses, triedBuses_append, openedFds_append, closedFds_append,
        t1, o1, c1, openedFds, closedFds, h0, hx, not_lt.mp hx]
  have hC : ¬ (env 1).responds → ¬ (env 2).responds →
      (scanForDevice env s).ret = 0 ∧ (scanForDevice env s).session.present = 0 ∧
      (scanForDevice env s).session.I2Cfile = -1 ∧
      triedBuses (scanForDevice env s).trace = [1, 2] ∧
      closedFds (scanForDevice env s).trace = openedFds (scanForDevice env s).trace := by
    intro h1 h2
    obtain ⟨mid, e1, t1, o1, c1⟩ := scanLoop_no_answer env 1 { s with I2CBus := 1 } [] 1 rfl h1
    obtain ⟨mid2, e2, t2, o2, c2⟩ := scanLoop_no_answer env 0
      { s with I2CBus := 1 + 1, I2Cfile := if (env 1).openFd < 0 then (env 1).openFd else -1 }
      ([] ++ Event.openBus 1 (env 1).openFd :: mid) 2 rfl h2
    have hz : ∀ (s0 : EyesI2C) (tr0 : List Event),
        scanLoop env 0 s0 tr0 = ⟨0, { s0 with present := 0 }, tr0⟩ := fun _ _ => rfl
    unfold scanForDevice
    rw [e1, e2, hz]
    refine ⟨rfl, rfl, ?_, ?_, ?_⟩
    · show (if (env 2).openFd < 0 then (env 2).openFd else -1) = -1
      split_ifs with h
      · exact hopen 2 h
      · rfl
    · simp [triedBuses, triedBuses_append, t1, t2]
    · simp [closedFds_append, openedFds_append, openedFds_openBus, closedFds, o1, o2, c1, c2]
  refine ⟨?_, hA, hB, hC⟩
  by_cases h1 : (env 1).responds
  · simp [h1, (hA h1).1]
  · by_cases h2 : (env 2).responds
    · simp [h2, (hB h1 h2).1]
    · simp [h1, h2, (hC h1 h2).1]

theorem busTwoOnly_open (bus : Int) (h : (busTwoOnly bus).openFd < 0) :
    (busTwoOnly bus).openFd = -1 := by
  unfold busTwoOnly at h ⊢
  split_ifs at h ⊢ with hb
  · simp at h
  · rfl

/-- Instance of C14: bus 1 does not open, bus 2 answers; the session keeps the
handle of bus 2. -/
theorem scanForDevice_spec_witness :
    (∀ bus, (busTwoOnly bus).openFd < 0 → (busTwoOnly bus).openFd = -1) ∧
    ((scanForDevice busTwoOnly sessionDown).ret ≠ 0 ↔
      ((busTwoOnly 1).responds ∨ (busTwoOnly 2).responds)) ∧
    ¬ (busTwoOnly 1).responds ∧ (busTwoOnly 2).responds ∧
    (scanForDevice busTwoOnly sessionDown).ret = 1 ∧
    (scanForDevice busTwoOnly sessionDown).session.I2Cfile = 4 ∧
    triedBuses (scanForDevice busTwoOnly sessionDown).trace = [1, 2] :=
  ⟨busTwoOnly_open, (scanForDevice_spec busTwoOnly sessionDown busTwoOnly_open).1,
    by decide, by decide, by decide, by decide, by decide⟩

/-! ## Claim C15: the pupil scenario -/

/-- Claim C15: starting from the state `main` initialises (both pupils 70,
everything else 0) with the controller found (`connected` = 1, session present,
handle open) and the snapshot equal to the live state, once `right_pupil` is
set to 40 the next tick, the controller answering (lock obtained, write
succeeding), transmits exactly one packet, whose byte 8 is `0xA3`, and the
snapshot's `right_pupil` is 40 afterwards. -/
theorem pupil_scenario (env : TickEnv) (s : EyesI2C)
    (hpresent : s.present ≠ 0) (hfile : 0 ≤ s.I2Cfile)
    (hlock : env.send.lockSts = 0) (hok : 0 ≤ env.send.status) :
    writtenPackets
        (loopBody env ⟨s, eyesDefault.put Field.right_pupil 40, initPrevEyes eyesDefault⟩).2
      = [[0xBB, 0x88, 0, 0x88, 0x88, 0x80, 0x80, 0x88, 0xA3, 0xC1, 0, 0x62]] ∧
    (∀ q ∈ writtenPackets
        (loopBody env ⟨s, eyesDefault.put Field.right_pupil 40, initPrevEyes eyesDefault⟩).2,
      q.getD 8 0 = 0xA3) ∧
    sendFullCalls
        (loopBody env ⟨s, eyesDefault.put Field.right_pupil 40, initPrevEyes eyesDefault⟩).2
      = [liveArgs (eyesDefault.put Field.right_pupil 40)] ∧
    (loopBody env ⟨s, eyesDefault.put Field.right_pupil 40,
      initPrevEyes eyesDefault⟩).1.prevEyes.right_pupil = 40 ∧
    SnapshotMatches
      (loopBody env ⟨s, eyesDefault.put Field.right_pupil 40, initPrevEyes eyesDefault⟩).1.prevEyes
      (eyesDefault.put Field.right_pupil 40) := by
  have hch : eyesChanged (initPrevEyes eyesDefault) (eyesDefault.put Field.right_pupil 40) ≠ 0 := by
    decide
  obtain ⟨h1, h2, h3⟩ := loopBody_changed_ok env s (eyesDefault.put Field.right_pupil 40)
    (initPrevEyes eyesDefault) hpresent hfile hch hlock hok
  have hpk : checksumLoop (fullPacket (liveArgs (eyesDefault.put Field.right_pupil 40)))
      = [0xBB, 0x88, 0, 0x88, 0x88, 0x80, 0x80, 0x88, 0xA3, 0xC1, 0, 0x62] := by
    decide
  rw [h1, h2, h3, hpk]
  refine ⟨rfl, ?_, rfl, rfl, snapshotMatches_init _⟩
  intro q hq
  rw [List.mem_singleton.mp hq]
  rfl

/-- Instance of C15, from the start of `main`: the controller is found at
startup, the initial state is sent, then `right_pupil` is set to 40. -/
theorem pupil_scenario_witness :
    (startup envAllOk).1.eyesCtl.present ≠ 0 ∧ 0 ≤ (startup envAllOk).1.eyesCtl.I2Cfile ∧
    envAllOk.send.lockSts = 0 ∧ 0 ≤ envAllOk.send.status ∧
    (startup envAllOk).1.eyes = eyesDefault ∧
    (startup envAllOk).1.prevEyes = initPrevEyes eyesDefault ∧
    writtenPackets
        (loopBody envAllOk ⟨(startup envAllOk).1.eyesCtl, eyesDefault.put Field.right_pupil 40,
          initPrevEyes eyesDefault⟩).2
      = [[0xBB, 0x88, 0, 0x88, 0x88, 0x80, 0x80, 0x88, 0xA3, 0xC1, 0, 0x62]] ∧
    (loopBody envAllOk ⟨(startup envAllOk).1.eyesCtl, eyesDefault.put Field.right_pupil 40,
      initPrevEyes eyesDefault⟩).1.prevEyes.right_pupil = 40 :=
  ⟨by decide, by decide, by decide, by decide, by decide, by decide,
    (pupil_scenario envAllOk (startup envAllOk).1.eyesCtl (by decide) (by decide) (by decide)
      (by decide)).1,
    (pupil_scenario envAllOk (startup envAllOk).1.eyesCtl (by decide) (by decide) (by decide)
      (by decide)).2.2.2.1⟩


/-! ## Claim C16: what the snapshot records -/

theorem deliveredPackets_append (t u : List Event) :
    deliveredPackets (t ++ u) = deliveredPackets t ++ deliveredPackets u := by
  induction t with
  | nil => rfl
  | cons e t ih =>
    cases e <;> simp [deliveredPackets, ih]
    split_ifs <;> simp

/-- A send that returns 0 has delivered its packet. -/
theorem deliveredPackets_sendFullCommand (env : SendEnv) (s : EyesI2C) (a : FullArgs)
    (h : 0 ≤ (sendFullCommand env s a).ret) :
    deliveredPackets (sendFullCommand env s a).trace = [checksumLoop (fullPacket a)] := by
  rw [sendFullCommand_ret] at h
  rcases sendCommand_cases env s (fullPacket a) with
    ⟨-, hr, -, -⟩ | ⟨-, hr, -, -⟩ | ⟨⟨c1, c2, c3, c4⟩, -, -, -⟩
  · omega
  · omega
  · simp [sendFullCommand, sendCommand, c1, not_lt.mpr c2, c3, not_lt.mpr c4, deliveredPackets, c4]

/-- Inside the loop the snapshot is written only by a tick whose send
delivered the live state. -/
theorem loopBody_snapshot_on_delivery (env : TickEnv) (d : Daemon)
    (h : (loopBody env d).1.prevEyes ≠ d.prevEyes) :
    (loopBody env d).1.prevEyes = initPrevEyes d.eyes ∧
    deliveredPackets (loopBody env d).2 = [checksumLoop (fullPacket (liveArgs d.eyes))] := by
  by_cases hp : d.eyesCtl.present = 0
  · exfalso
    apply h
    unfold loopBody
    simp only [hp, if_true]
    split_ifs <;> rfl
  by_cases hc : eyesChanged d.prevEyes d.eyes = 0
  · exfalso
    apply h
    rw [loopBody_unchanged env d hp hc]
  by_cases hr : (sendFullCommand env.send d.eyesCtl (liveArgs d.eyes)).ret < 0
  · exfalso
    apply h
    unfold loopBody
    simp only [hp, hc, hr, if_false, if_true, ne_eq, not_false_eq_true]
    split_ifs <;> rfl
  · have hd := deliveredPackets_sendFullCommand env.send d.eyesCtl (liveArgs d.eyes) (not_lt.mp hr)
    rw [loopBody_changed_trace env d.eyesCtl d.eyes d.prevEyes hp hc, deliveredPackets_append, hd]
    refine ⟨?_, rfl⟩
    unfold loopBody
    simp only [hp, hc, hr, if_false, ne_eq, not_false_eq_true, if_true]
    rfl

/-- Claim C16, the code at the failing input: the controller is found at
startup and the initial write fails with errno 5.  The session stays present,
no packet has been delivered, yet the snapshot equals the live state, so
`eyesChanged` reports no change and the following tick sends nothing. -/
theorem startup_snapshot_unsent :
    (startup envFoundThenGlitch).1.eyesCtl.present = 1 ∧
    (startup envFoundThenGlitch).1.eyes.connected = 1 ∧
    sendFullCalls (startup envFoundThenGlitch).2 = [liveArgs eyesDefault] ∧
    deliveredPackets (startup envFoundThenGlitch).2 = [] ∧
    (startup envFoundThenGlitch).1.prevEyes = initPrevEyes eyesDefault ∧
    eyesChanged (startup envFoundThenGlitch).1.prevEyes (startup envFoundThenGlitch).1.eyes = 0 ∧
    (∀ env2, loopBody env2 (startup envFoundThenGlitch).1
      = ((startup envFoundThenGlitch).1, [Event.usleep 50000])) := by
  refine ⟨by decide, by decide, by decide, by decide, by decide, by decide, ?_⟩
  intro env2
  exact loopBody_unchanged env2 _ (by decide) (by decide)

/-! ## Claim C17: handles opened and closed -/

/-- Claim C17, the code at the failing input: the controller is found on
descriptor 3, a send fails with errno 121, `scanForDevice` is called again and
finds the controller on descriptor 4, the session is destroyed.  Descriptor 3
was opened and is never closed.  The same happens when the second scan finds
nothing. -/
theorem handle_leaks_after_demotion :
    openedFds (lifetime (busAnswers 3)
      [Op.sendFull sendRemoteIO (liveArgs eyesDefault), Op.scan (busAnswers 4)]) = [3, 4] ∧
    closedFds (lifetime (busAnswers 3)
      [Op.sendFull sendRemoteIO (liveArgs eyesDefault), Op.scan (busAnswers 4)]) = [4] ∧
    openedFds (lifetime (busAnswers 3)
      [Op.sendFull sendRemoteIO (liveArgs eyesDefault), Op.scan (busAnswers (-1))]) = [3] ∧
    closedFds (lifetime (busAnswers 3)
      [Op.sendFull sendRemoteIO (liveArgs eyesDefault), Op.scan (busAnswers (-1))]) = [] := by
  decide


/-! ## Claim C18: the transient failure -/

/-- A send after which the session is still present has left the session as
it was. -/
theorem sendFullCommand_still_present (env : SendEnv) (s : EyesI2C) (a : FullArgs)
    (h : (sendFullCommand env s a).session.present ≠ 0) :
    (sendFullCommand env s a).session = s := by
  rw [sendFullCommand_session] at h ⊢
  rcases sendCommand_cases env s (fullPacket a) with
    ⟨-, -, hs, -⟩ | ⟨-, -, hs, -⟩ | ⟨-, -, hs, -⟩
  · exact hs
  · rw [hs] at h ⊢
    by_cases he : env.errno = 121
    · simp [he] at h
    · simp [he]
  · exact hs

/-- Claim C18: in a connected tick that sees a change, when the send fails
(negative result) and the session's `present` flag is still set, the tick
changes nothing: session, `connected`, every live field, `send_command` and the
snapshot are as before.  So `eyesChanged` still reports a change and the next
tick calls `sendFullCommand` again with the same state. -/
theorem transient_failure_retries (env env2 : TickEnv) (d : Daemon)
    (hconn : d.eyesCtl.present ≠ 0)
    (hchg : eyesChanged d.prevEyes d.eyes ≠ 0)
    (hfail : (sendFullCommand env.send d.eyesCtl (liveArgs d.eyes)).ret < 0)
    (hstill : (sendFullCommand env.send d.eyesCtl (liveArgs d.eyes)).session.present ≠ 0) :
    (loopBody env d).1 = d ∧
    (loopBody env d).1.eyesCtl.present ≠ 0 ∧
    (loopBody env d).1.eyes.connected = d.eyes.connected ∧
    (loopBody env d).1.eyes.send_command = d.eyes.send_command ∧
    (loopBody env d).1.prevEyes = d.prevEyes ∧
    sendFullCalls (loopBody env d).2 = [liveArgs d.eyes] ∧
    eyesChanged (loopBody env d).1.prevEyes (loopBody env d).1.eyes ≠ 0 ∧
    sendFullCalls (loopBody env2 (loopBody env d).1).2 = [liveArgs d.eyes] := by
  have hs := sendFullCommand_still_present env.send d.eyesCtl (liveArgs d.eyes) hstill
  have hd : (loopBody env d).1 = d := by
    unfold loopBody
    simp only [hconn, hchg, hfail, hstill, if_false, if_true, ne_eq, not_false_eq_true]
    rw [hs]
  have ht : ∀ e : TickEnv, sendFullCalls (loopBody e d).2 = [liveArgs d.eyes] := by
    intro e
    rw [loopBody_changed_trace e d.eyesCtl d.eyes d.prevEyes hconn hchg, sendFullCalls_append,
      sendFullCalls_sendFullCommand]
    rfl
  rw [hd]
  exact ⟨rfl, hconn, rfl, rfl, rfl, ht env, hchg, ht env2⟩

/-- Instance of C18: the right pupil was set to 40 and the write fails with
errno 5. -/
theorem transient_failure_retries_witness :
    daemonUp.eyesCtl.present ≠ 0 ∧
    eyesChanged daemonUp.prevEyes (daemonUp.eyes.put Field.right_pupil 40) ≠ 0 ∧
    (sendFullCommand envFoundThenGlitch.send daemonUp.eyesCtl
      (liveArgs (daemonUp.eyes.put Field.right_pupil 40))).ret < 0 ∧
    (sendFullCommand envFoundThenGlitch.send daemonUp.eyesCtl
      (liveArgs (daemonUp.eyes.put Field.right_pupil 40))).session.present ≠ 0 ∧
    (loopBody envFoundThenGlitch
      { daemonUp with eyes := daemonUp.eyes.put Field.right_pupil 40 }).1
      = { daemonUp with eyes := daemonUp.eyes.put Field.right_pupil 40 } ∧
    sendFullCalls (loopBody envAllOk (loopBody envFoundThenGlitch
      { daemonUp with eyes := daemonUp.eyes.put Field.right_pupil 40 }).1).2
      = [liveArgs (daemonUp.eyes.put Field.right_pupil 40)] :=
  ⟨by decide, by decide, by decide, by decide,
    (transient_failure_retries envFoundThenGlitch envAllOk
      { daemonUp with eyes := daemonUp.eyes.put Field.right_pupil 40 }
      (by decide) (by decide) (by decide) (by decide)).1,
    (transient_failure_retries envFoundThenGlitch envAllOk
      { daemonUp with eyes := daemonUp.eyes.put Field.right_pupil 40 }
      (by decide) (by decide) (by decide) (by decide)).2.2.2.2.2.2.2⟩

/-! ## Claim C19: which failure demotes -/

/-- Claim C19: on a present session with an open handle and the lock obtained,
a write that fails makes `sendCommand` return -2 and clears `present` exactly
when errno is 121 (nothing else of the session changes, and with another errno
nothing changes); a write that succeeds returns 0 and leaves the session as it
was. -/
theorem sendCommand_demotes_on_121 (env : SendEnv) (s : EyesI2C) (p : List Nat)
    (hpresent : s.present ≠ 0) (hfile : 0 ≤ s.I2Cfile) (hlock : env.lockSts = 0) :
    (env.status < 0 →
      (sendCommand env s p).ret = -2 ∧
      ((sendCommand env s p).session.present = 0 ↔ env.errno = 121) ∧
      (env.errno = 121 → (sendCommand env s p).session = { s with present := 0 }) ∧
      (env.errno ≠ 121 → (sendCommand env s p).session = s)) ∧
    (0 ≤ env.status →
      (sendCommand env s p).ret = 0 ∧ (sendCommand env s p).session = s) := by
  constructor
  · intro hs
    by_cases he : env.errno = 121
    · simp [sendCommand, hpresent, not_lt.mpr hfile, hlock, hs, he]
    · simp [sendCommand, hpresent, not_lt.mpr hfile, hlock, hs, he]
  · intro hs
    simp [sendCommand, hpresent, not_lt.mpr hfile, hlock, not_lt.mpr hs]

/-- Instance of C19: errno 121 clears `present`, errno 5 does not. -/
theorem sendCommand_demotes_on_121_witness :
    sessionUp.present ≠ 0 ∧ 0 ≤ sessionUp.I2Cfile ∧ sendRemoteIO.lockSts = 0 ∧
    sendRemoteIO.status < 0 ∧
    (sendCommand sendRemoteIO sessionUp stalePacket).ret = -2 ∧
    ((sendCommand sendRemoteIO sessionUp stalePacket).session.present = 0 ↔
      sendRemoteIO.errno = 121) ∧
    (sendCommand sendIOError sessionUp stalePacket).session.present = 1 :=
  ⟨by decide, by decide, by decide, by decide,
    ((sendCommand_demotes_on_121 sendRemoteIO sessionUp stalePacket (by decide) (by decide)
      (by decide)).1 (by decide)).1,
    ((sendCommand_demotes_on_121 sendRemoteIO sessionUp stalePacket (by decide) (by decide)
      (by decide)).1 (by decide)).2.1,
    by decide⟩

/-! ## Claim C20: the bus lock -/

theorem lockRun_append (st : LockState) (t u : List Event) :
    lockRun st (t ++ u) =
      match lockRun st t with
      | none => none
      | some st1 => lockRun st1 u := by
  induction t generalizing st with
  | nil => rfl
  | cons e t ih =>
    simp only [List.cons_append, lockRun]
    cases lockStep st e with
    | none => rfl
    | some st1 => exact ih st1

theorem lockRun_free_append (t u : List Event)
    (ht : lockRun LockState.free t = some LockState.free)
    (hu : lockRun LockState.free u = some LockState.free) :
    lockRun LockState.free (t ++ u) = some LockState.free := by
  rw [lockRun_append, ht]
  exact hu

/-- The scan loop keeps the lock rule: a trace that obeys it and ends with the
lock free is extended to one that does. -/
theorem scanLoop_lock (env : Int → BusEnv) (n : Nat) (s : EyesI2C) (tr : List Event)
    (h : lockRun LockState.free tr = some LockState.free) :
    lockRun LockState.free (scanLoop env n s tr).trace = some LockState.free := by
  induction n generalizing s tr with
  | zero => exact h
  | succ n ih =>
    unfold scanLoop
    simp only
    split_ifs with h1 h2 h3 h4 h5
    all_goals try apply ih
    all_goals try simp only [List.append_assoc]
    all_goals apply lockRun_free_append _ _ h
    all_goals simp_all [lockRun, lockStep]

/-- Claim C20: every trace of `scanForDevice` and of `sendCommand` (so also of
`sendFullCommand` and `sendEyeState`) obeys the lock rule from the lock free to
the lock free: each probe read and each packet write happens with the lock
held, at most one transaction is made under one acquisition, each successful
acquisition is followed by one release, nothing is released that is not held,
and the operation returns with the lock free. -/
theorem lock_discipline (busEnv : Int → BusEnv) (env : SendEnv) (s : EyesI2C)
    (p : List Nat) (a : FullArgs) (r l : Int) :
    lockRun LockState.free (scanForDevice busEnv s).trace = some LockState.free ∧
    lockRun LockState.free (sendCommand env s p).trace = some LockState.free ∧
    lockRun LockState.free (sendFullCommand env s a).trace = some LockState.free ∧
    lockRun LockState.free (sendEyeState env s r l).trace = some LockState.free := by
  have hsend : ∀ q : List Nat,
      lockRun LockState.free (sendCommand env s q).trace = some LockState.free := by
    intro q
    unfold sendCommand
    split_ifs <;> simp_all [lockRun, lockStep]
  refine ⟨scanLoop_lock busEnv 2 _ [] rfl, hsend p, ?_, hsend _⟩
  have h := hsend (fullPacket a)
  simpa [sendFullCommand, lockRun, lockStep] using h


/-! ## Claim C21: the encoding loses nothing on the valid domain -/

/-- The two values of a standard byte built with both set flags on are read
back from bits 6-5 and bits 2-1. -/
theorem encodeStandard_decode (r l : Int)
    (hr0 : 0 ≤ r) (hr3 : r ≤ 3) (hl0 : 0 ≤ l) (hl3 : l ≤ 3) :
    (((encodeStandard 1 r 1 l >>> 5) &&& 3 : Nat) : Int) = r ∧
    (((encodeStandard 1 r 1 l >>> 1) &&& 3 : Nat) : Int) = l := by
  interval_cases r <;> interval_cases l <;> decide

theorem encodeStandard_inj (r l r2 l2 : Int)
    (hr : 0 ≤ r ∧ r ≤ 3) (hl : 0 ≤ l ∧ l ≤ 3) (hr2 : 0 ≤ r2 ∧ r2 ≤ 3) (hl2 : 0 ≤ l2 ∧ l2 ≤ 3)
    (h : encodeStandard 1 r 1 l = encodeStandard 1 r2 1 l2) : r = r2 ∧ l = l2 := by
  obtain ⟨a1, a2⟩ := encodeStandard_decode r l hr.1 hr.2 hl.1 hl.2
  obtain ⟨b1, b2⟩ := encodeStandard_decode r2 l2 hr2.1 hr2.2 hl2.1 hl2.2
  rw [h] at a1 a2
  exact ⟨a1.symm.trans b1, a2.symm.trans b2⟩

/-- The code of a position byte built with the set flag on is read back from
bits 6-3. -/
theorem encodePosition_decode (pos : Int) (h0 : 0 ≤ pos) (h15 : pos ≤ 15) :
    (((encodePosition 1 pos >>> 3) &&& 0x0F : Nat) : Int) = pos := by
  interval_cases pos <;> decide

theorem encodePosition_inj (p p2 : Int) (hp : 0 ≤ p ∧ p ≤ 15) (hp2 : 0 ≤ p2 ∧ p2 ≤ 15)
    (h : encodePosition 1 p = encodePosition 1 p2) : p = p2 := by
  have a := encodePosition_decode p hp.1 hp.2
  have b := encodePosition_decode p2 hp2.1 hp2.2
  rw [h] at a
  exact a.symm.trans b

theorem encodePupil_inj (p p2 : Int) (hp : 5 ≤ p ∧ p ≤ 90) (hp2 : 5 ≤ p2 ∧ p2 ≤ 90)
    (h : encodePupil 1 p = encodePupil 1 p2) : p = p2 := by
  have a := (encodePupil_fields 1 p (by unfold INT_MIN; omega) (by unfold INT_MAX; omega)).2
  have b := (encodePupil_fields 1 p2 (by unfold INT_MIN; omega) (by unfold INT_MAX; omega)).2
  have ca : clamp (clamp p 5 90 - 5) 0 85 = p - 5 := by
    unfold clamp; split_ifs <;> omega
  have cb : clamp (clamp p2 5 90 - 5) 0 85 = p2 - 5 := by
    unfold clamp; split_ifs <;> omega
  rw [h, ca] at a
  rw [cb] at b
  omega

/-- The buffer `sendFullCommand` fills, byte by byte. -/
theorem fullPacket_eq (a : FullArgs) :
    fullPacket a =
      [toUChar EYES_CMD_HEADER, encodeStandard 1 a.rState 1 a.lState, 0,
        encodeStandard 1 a.rLid 1 a.lLid, encodeStandard 1 a.rMove 1 a.lMove,
        encodePosition 1 a.rPos, encodePosition 1 a.lPos,
        encodeStandard 1 a.rBlink 1 a.lBlink, encodePupil 1 a.rPupil,
        encodePupil 1 a.lPupil, 0, 0] := by
  simp [fullPacket, zeroPacket, EYES_PACKET_SIZE, PKT_HEADER, PKT_EYESTATE, PKT_LID, PKT_MOVE,
    PKT_POS_R, PKT_POS_L, PKT_BLINK, PKT_PUPIL_R, PKT_PUPIL_L, List.replicate]

/-- Claim C21: for two eye states whose twelve fields lie in their valid
ranges, if the packets `sendFullCommand` builds for them agree on bytes 1
through 9, the two states are equal in all twelve fields; the same holds for
the packets as they go on the wire, after the checksum loop. -/
theorem fullPacket_injective (a b : FullArgs) (ha : a.valid) (hb : b.valid) :
    ((∀ i, 1 ≤ i → i ≤ 9 → (fullPacket a).getD i 0 = (fullPacket b).getD i 0) → a = b) ∧
    ((∀ i, 1 ≤ i → i ≤ 9 →
        (checksumLoop (fullPacket a)).getD i 0 = (checksumLoop (fullPacket b)).getD i 0) →
      a = b) := by
  have key : (∀ i, 1 ≤ i → i ≤ 9 → (fullPacket a).getD i 0 = (fullPacket b).getD i 0) →
      a = b := by
    intro h
    obtain ⟨a1, a2, a3, a4, a5, a6, a7, a8, a9, a10, a11, a12⟩ := ha
    obtain ⟨b1, b2, b3, b4, b5, b6, b7, b8, b9, b10, b11, b12⟩ := hb
    have e1 := h 1 (by decide) (by decide)
    have e3 := h 3 (by decide) (by decide)
    have e4 := h 4 (by decide) (by decide)
    have e5 := h 5 (by decide) (by decide)
    have e6 := h 6 (by decide) (by decide)
    have e7 := h 7 (by decide) (by decide)
    have e8 := h 8 (by decide) (by decide)
    have e9 := h 9 (by decide) (by decide)
    rw [fullPacket_eq a, fullPacket_eq b] at e1 e3 e4 e5 e6 e7 e8 e9
    simp only [List.getD_cons_succ, List.getD_cons_zero] at e1 e3 e4 e5 e6 e7 e8 e9
    obtain ⟨s1, s2⟩ := encodeStandard_inj _ _ _ _ a1 a2 b1 b2 e1
    obtain ⟨l1, l2⟩ := encodeStandard_inj _ _ _ _ ⟨a3.1, by omega⟩ ⟨a4.1, by omega⟩
      ⟨b3.1, by omega⟩ ⟨b4.1, by omega⟩ e3
    obtain ⟨m1, m2⟩ := encodeStandard_inj _ _ _ _ ⟨a5.1, by omega⟩ ⟨a6.1, by omega⟩
      ⟨b5.1, by omega⟩ ⟨b6.1, by omega⟩ e4
    have p1 := encodePosition_inj _ _ ⟨a7.1, by omega⟩ ⟨b7.1, by omega⟩ e5
    have p2 := encodePosition_inj _ _ ⟨a8.1, by omega⟩ ⟨b8.1, by omega⟩ e6
    obtain ⟨k1, k2⟩ := encodeStandard_inj _ _ _ _ a9 a10 b9 b10 e7
    have q1 := encodePupil_inj _ _ a11 b11 e8
    have q2 := encodePupil_inj _ _ a12 b12 e9
    cases a
    cases b
    simp_all
  refine ⟨key, ?_⟩
  intro h
  apply key
  intro i h1 h9
  have wa := (checksum_of_written (fullPacket a) _ (fullPacket_length a) (fullPacket_bytes a)
    rfl).2.2 i (by omega)
  have wb := (checksum_of_written (fullPacket b) _ (fullPacket_length b) (fullPacket_bytes b)
    rfl).2.2 i (by omega)
  rw [← wa, ← wb]
  exact h i h1 h9

/-- Instance of C21: a valid state compared with the default state; since
their packets differ on one of bytes 1 through 9, agreement on all of them is
only met by comparing a state with itself. -/
theorem fullPacket_injective_witness :
    argsA.valid ∧ (liveArgs eyesDefault).valid ∧
    (fullPacket argsA).getD 1 0 ≠ (fullPacket (liveArgs eyesDefault)).getD 1 0 ∧
    ((∀ i, 1 ≤ i → i ≤ 9 → (fullPacket argsA).getD i 0 = (fullPacket argsA).getD i 0) →
      argsA = argsA) :=
  ⟨by decide, by decide, by decide,
    (fullPacket_injective argsA argsA (by decide) (by decide)).1⟩


/-! ## Claim C22: a present session has an open handle -/

/-- Whatever the session was, after `scanForDevice` a set `present` flag comes
with the handle the scan kept. -/
theorem scanForDevice_handle (env : Int → BusEnv) (s : EyesI2C) :
    (scanForDevice env s).session.handleOpenIfPresent := by
  intro hp
  have hr : (scanForDevice env s).ret ≠ 0 := by
    unfold scanForDevice at hp ⊢
    rw [scanLoop_ret]
    exact hp
  exact (scanLoop_success env 2 _ [] hr).2

/-- The send operations keep the invariant: they never write `I2Cfile` and
only ever clear `present`. -/
theorem sendCommand_handle (env : SendEnv) (s : EyesI2C) (p : List Nat)
    (h : s.handleOpenIfPresent) : (sendCommand env s p).session.handleOpenIfPresent := by
  rcases sendCommand_cases env s p with ⟨-, -, hs, -⟩ | ⟨-, -, hs, -⟩ | ⟨-, -, hs, -⟩
  · rw [hs]; exact h
  · rw [hs]
    by_cases he : env.errno = 121
    · simp [he, EyesI2C.handleOpenIfPresent]
    · simpa [he] using h
  · rw [hs]; exact h

theorem runOps_handle (ops : List Op) (s : EyesI2C) (h : s.handleOpenIfPresent) :
    (runOps s ops).1.handleOpenIfPresent := by
  induction ops generalizing s with
  | nil => exact h
  | cons op ops ih =>
    cases op with
    | scan env =>
      simp only [runOps]
      exact ih _ (scanForDevice_handle env s)
    | send env packet =>
      simp only [runOps]
      exact ih _ (sendCommand_handle env s packet h)
    | sendFull env a =>
      simp only [runOps]
      exact ih _ (sendCommand_handle env s (fullPacket a) h)

/-- Claim C22: after construction and after any sequence of completed calls of
`scanForDevice`, `sendCommand` and `sendFullCommand`, and after a further
`sendEyeState`, a non-zero `present` flag comes with `I2Cfile >= 0`; so in every
such state the test `!present || I2Cfile < 0` of `sendCommand` holds exactly
when `present` is zero. -/
theorem present_implies_handle (env0 : Int → BusEnv) (ops : List Op) :
    (construct env0).session.handleOpenIfPresent ∧
    (runOps (construct env0).session ops).1.handleOpenIfPresent ∧
    (∀ env r l,
      (sendEyeState env (runOps (construct env0).session ops).1 r l).session.handleOpenIfPresent) ∧
    (((runOps (construct env0).session ops).1.present = 0 ∨
        (runOps (construct env0).session ops).1.I2Cfile < 0) ↔
      (runOps (construct env0).session ops).1.present = 0) := by
  have h0 : (construct env0).session.handleOpenIfPresent := scanForDevice_handle env0 _
  have h1 := runOps_handle ops _ h0
  refine ⟨h0, h1, fun env r l => sendCommand_handle env _ _ h1, ?_⟩
  constructor
  · rintro (h | h)
    · exact h
    · by_contra hp
      have := h1 hp
      omega
  · exact Or.inl

end SimCtl
